import Mathlib

set_option maxRecDepth 80000
set_option maxHeartbeats 1000000

/-- Structured values as Python's json module deserializes them: null, booleans,
numbers, strings, arrays (ordered sequences) and objects. The corpus loader in
src/questions.py returns whatever json.load produces, of any of these shapes. -/
inductive Json where
  | null : Json
  | bool (b : Bool) : Json
  | num (n : Int) : Json
  | str (s : String) : Json
  | arr (xs : List Json) : Json
  | obj (fields : List (String × Json)) : Json

/-- The observable states of the corpus store location "all_questions.json":
the file may be absent (open raises FileNotFoundError), unreadable (open or
read raises an IOError), or present with some text content. -/
inductive CorpusFile where
  | absent : CorpusFile
  | unreadable : CorpusFile
  | content (text : String) : CorpusFile

/-- get_questions from src/questions.py lines 6-12: `try: open; return
json.load(f) except: return []`. The deserializer (Python's json library,
external to the repository) is a parameter: `parse s = none` models json.load
raising on text `s`, `parse s = some j` models it returning the value `j`.
The bare `except` catches every failure (missing file, unreadable file,
parse error) and returns the empty list; a successfully parsed value is
returned unchanged, whatever its shape. -/
def get_questions (parse : String → Option Json) (file : CorpusFile) : Json :=
  match file with
  | .absent => Json.arr []
  | .unreadable => Json.arr []
  | .content s =>
    match parse s with
    | none => Json.arr []
    | some j => j

/-- src/questions.py line 15: `questions = get_questions()`, the module-level
corpus read performed once at import time against the ambient file state. -/
def questions (parse : String → Option Json) (file : CorpusFile) : Json :=
  get_questions parse file

/-- Concatenation of a list of string pieces. The three composer templates are
modelled as strJoin of their pieces, whose concatenation is byte-identical to
the Python f-string bodies. -/
def strJoin : List String → String
  | [] => ""
  | p :: ps => p ++ strJoin ps

/-- `containsStr hay needle`: needle occurs contiguously inside hay. -/
def containsStr (hay needle : String) : Prop :=
  ∃ x y, hay.data = x ++ needle.data ++ y

/-- Boolean test: `n` is a prefix of `l`. -/
def listPre : List Char → List Char → Bool
  | [], _ => true
  | _ :: _, [] => false
  | a :: as, b :: bs => a == b && listPre as bs

/-- Boolean test: `n` occurs contiguously inside `l`. -/
def listSub (n : List Char) : List Char → Bool
  | [] => n.isEmpty
  | h :: t => listPre n (h :: t) || listSub n t

/-- Boolean test: `c` occurs in `l`. -/
def listHas (c : Char) : List Char → Bool
  | [] => false
  | a :: t => a == c || listHas c t

/-- Boolean test: `l` is nonempty and its last element is `d`. -/
def endsWithB (d : Char) : List Char → Bool
  | [] => false
  | [a] => a == d
  | _ :: b :: t => endsWithB d (b :: t)

/-- Whether a string ends with a newline character. -/
def endsNL (s : String) : Bool := endsWithB '\n' s.data

/-- Merge consecutive pieces into full lines: a piece ending in a newline
closes a group. `strJoin (mergeLines l) = strJoin l`. -/
def mergeLines : List String → List String
  | [] => []
  | s :: rest =>
    if endsNL s then s :: mergeLines rest
    else
      match mergeLines rest with
      | [] => [s]
      | t :: ts => (s ++ t) :: ts

/-- Every piece except possibly the last ends with the character `d`. -/
def okLines (d : Char) : List String → Bool
  | [] => true
  | [_] => true
  | s :: b :: t => endsWithB d s.data && okLines d (b :: t)
def noVulnSentinel : String :=
  "#NoVulnerability found for this question."

def qf_severity_header : String :=
  "**VALID IMPACT CATEGORIES (Immunefi Panoptic Bug Bounty):**"

def qf_scope_label : String :=
  "All 11 core contracts"

def vf_inscope_label : String :=
  "**In-Scope Files (11 total):**"

def vf_inv_count_ref : String :=
  "the 26 Panoptic invariants"

def vf_outreq_header : String :=
  "## Panoptic Protocol Validation Output Requirements"

def qg_title : String :=
  "# **Generate 150+ Targeted Security Audit Questions for Panoptic Protocol**"

def qg_total_label : String :=
  "**Total: 11 files in full scope"

def qg_no_empty : String :=
  "DO NOT return empty results"

def qf_persona_parts : List String := [
"\n",
"You are an **Elite DeFi Security Auditor** specializing in \n",
"options trading protocols, collateralized lending systems, oracle manipulation \n",
"resistance, and automated market maker integrations. Your task is to analyze \n",
"the **Panoptic Protocol** codebase—a permissionless options trading protocol \n",
"built on Uniswap V3/V4 featuring fully collateralized positions, dynamic \n",
"risk calculations, liquidation mechanisms, and premium settlement—through the \n",
"lens of this single security question: \n",
"\n"
]

def qf_persona : String := strJoin qf_persona_parts

def qf_qlabel : String :=
  "**Security Question (scope for this run):** "

def qf_inv1 : String := strJoin [
"1. **Solvency Maintenance**: All accounts must satisfy \n",
"   `balance0 + convert(scaledSurplus1) >= maintReq0` AND \n",
"   `balance1 + convert(scaledSurplus0) >= maintReq1` at oracle tick. \n",
"   Insolvent positions must be liquidated immediately.\n"
]

def qf_inv2 : String := strJoin [
"2. **Collateral Conservation**: Total assets must equal \n",
"   `s_depositedAssets + s_assetsInAMM + unrealizedGlobalInterest` at all times. \n",
"   Asset accounting errors can cause protocol insolvency.\n"
]

def qf_inv3 : String := strJoin [
"3. **Share Price Monotonicity**: Share price (`totalAssets() / totalSupply()`) \n",
"   must be non-decreasing except for protocol-favorable rounding. Share price \n",
"   manipulation allows asset drainage.\n"
]

def qf_inv4 : String := strJoin [
"4. **Interest Index Monotonicity**: Global `borrowIndex` must be monotonically \n",
"   increasing starting from 1e18 (WAD). Interest calculation bugs enable \n",
"   unlimited asset minting.\n"
]

def qf_inv5 : String := strJoin [
"5. **Cross-Collateral Limits**: Cross-buffer ratio must scale conservatively \n",
"   with utilization, dropping to zero at 90% utilization. Incorrect cross-collateral \n",
"   causes systemic undercollateralization.\n"
]

def qf_inv6 : String := strJoin [
"6. **Position Size Limits**: Individual positions limited by available Uniswap \n",
"   liquidity and `MAX_SPREAD = 90%`. Position size bypasses enable market manipulation.\n"
]

def qf_inv7 : String := strJoin [
"7. **Oracle Delta Limits**: Fast/slow oracle delta ≤ 953 ticks (~10%), median/slow \n",
"   delta ≤ 2×MAX_TICKS_DELTA. Oracle manipulation enables profitable liquidations.\n"
]

def qf_inv8 : String := strJoin [
"8. **Safe Mode Activation**: Protocol must enter safe mode when oracle deltas exceed \n",
"   thresholds. Safe mode failures allow price manipulation attacks.\n"
]

def qf_inv9 : String := strJoin [
"9. **TWAP Accuracy**: TWAP calculations must use sufficient time windows to prevent \n",
"   manipulation. Inaccurate TWAP enables liquidation attacks.\n"
]

def qf_inv10 : String := strJoin [
"10. **Price Consistency**: All operations in a single transaction must use consistent \n",
"    oracle tick(s). Inconsistent pricing causes arbitrage losses.\n"
]

def qf_inv11 : String := strJoin [
"11. **Liquidation Price Bounds**: Current tick must be within 513 ticks of TWAP during \n",
"    liquidation (~5% deviation). TWAP manipulation enables forced liquidations.\n"
]

def qf_inv12 : String := strJoin [
"12. **Position Encoding Validity**: TokenId encoding must produce valid tick ranges \n",
"    and liquidity amounts. Invalid encoding can brick positions permanently.\n"
]

def qf_inv13 : String := strJoin [
"13. **Leg Count Limits**: Users cannot exceed `MAX_OPEN_LEGS = 33` total position \n",
"    legs. Limit bypasses cause gas griefing and state bloat.\n"
]

def qf_inv14 : String := strJoin [
"14. **Premium Accounting**: Premium distribution must be proportional to liquidity \n",
"    share in each chunk. Incorrect accounting allows premium manipulation.\n"
]

def qf_inv15 : String := strJoin [
"15. **Force Exercise Costs**: Base cost of 1.024% for in-range, 1 bps for out-of-range \n",
"    positions. Cost calculation errors enable forced exercise exploitation.\n"
]

def qf_inv16 : String := strJoin [
"16. **Liquidation Completeness**: Liquidations must close all positions held by the \n",
"    liquidatee. Partial liquidations leave residual risk.\n"
]

def qf_inv17 : String := strJoin [
"17. **Asset Accounting**: `totalSupply()` must equal `_internalSupply + s_creditedShares` \n",
"    at all times. Share supply manipulation enables unlimited minting.\n"
]

def qf_inv18 : String := strJoin [
"18. **Deposit Limits**: Deposits must not exceed `type(uint104).max`, withdrawals must \n",
"    leave ≥1 asset. Limit bypasses cause accounting overflow.\n"
]

def qf_inv19 : String := strJoin [
"19. **Share Transfer Restrictions**: Users with open positions cannot transfer shares \n",
"    via `transfer()` or `transferFrom()`. Restriction bypass enables collateral theft.\n"
]

def qf_inv20 : String := strJoin [
"20. **Credited Shares Logic**: `s_creditedShares` only increases on position creation, \n",
"    decreases on closure. Incorrect tracking breaks share supply invariants.\n"
]

def qf_inv21 : String := strJoin [
"21. **Interest Accuracy**: Interest owed must equal \n",
"    `netBorrows * (currentBorrowIndex - userBorrowIndex) / userBorrowIndex`. \n",
"    Calculation errors cause interest manipulation.\n"
]

def qf_inv22 : String := strJoin [
"22. **Liquidation Bonus Caps**: Bonus cannot exceed liquidatee's pre-liquidation \n",
"    collateral balance. Excessive bonuses cause protocol loss.\n"
]

def qf_inv23 : String := strJoin [
"23. **Premium Haircutting**: Premium must be clawed back if protocol loss exists \n",
"    after liquidation. Missing haircuts enable economic exploits.\n"
]

def qf_inv24 : String := strJoin [
"24. **Protocol Loss Limits**: Share supply approaching 2^256-1 can cause various \n",
"    reverts and overflows. Supply overflow prevents all operations.\n"
]

def qf_inv25 : String := strJoin [
"25. **Force Exercise Validation**: Only long legs contribute to force exercise costs, \n",
"    must account for token deltas. Incorrect validation enables forced exercise theft.\n"
]

def qf_inv26 : String := strJoin [
"26. **Solvency Check Timing**: Solvency must be checked at oracle tick, not current \n",
"    tick, to prevent manipulation. Incorrect timing enables liquidation attacks.\n"
]

def qf_invariant_entries : List String := [
qf_inv1,
qf_inv2,
qf_inv3,
qf_inv4,
qf_inv5,
qf_inv6,
qf_inv7,
qf_inv8,
qf_inv9,
qf_inv10,
qf_inv11,
qf_inv12,
qf_inv13,
qf_inv14,
qf_inv15,
qf_inv16,
qf_inv17,
qf_inv18,
qf_inv19,
qf_inv20,
qf_inv21,
qf_inv22,
qf_inv23,
qf_inv24,
qf_inv25,
qf_inv26
]

def qf_invariants_parts : List String := [
"**CRITICAL INVARIANTS (derived from protocol specification and code):**\n",
"\n",
qf_inv1,
"\n",
qf_inv2,
"\n",
qf_inv3,
"\n",
qf_inv4,
"\n",
qf_inv5,
"\n",
qf_inv6,
"\n",
qf_inv7,
"\n",
qf_inv8,
"\n",
qf_inv9,
"\n",
qf_inv10,
"\n",
qf_inv11,
"\n",
qf_inv12,
"\n",
qf_inv13,
"\n",
qf_inv14,
"\n",
qf_inv15,
"\n",
qf_inv16,
"\n",
qf_inv17,
"\n",
qf_inv18,
"\n",
qf_inv19,
"\n",
qf_inv20,
"\n",
qf_inv21,
"\n",
qf_inv22,
"\n",
qf_inv23,
"\n",
qf_inv24,
"\n",
qf_inv25,
"\n",
qf_inv26,
"\n"
]

def qf_invariants : String := strJoin qf_invariants_parts

def qf_context_parts : List String := [
"\n",
"\n",
"**PANOPTIC PROTOCOL CONTEXT:**\n",
"\n",
"**Architecture**: Panoptic enables perpetual options trading on Uniswap pools by \n",
"representing options as liquidity positions. Selling options adds liquidity to \n",
"Uniswap (short positions), while buying options removes liquidity (long \n",
"positions). The protocol maintains full collateralization through dynamic \n",
"margin requirements calculated by the RiskEngine, with cross-collateralization \n",
"between tokens and adaptive interest rates based on pool utilization. \n",
"\n",
"Think in invariant \n",
"Check every logic entry that could affect the protocol base on the question provided \n",
"Look at the exact file provided and other places also if it can cause a severe vuln \n",
"Think in an elite way becasue there is always a logic vuln that could occur \n",
"\n",
"**Key Components**: \n",
"\n",
"* **Position Management**: `",
"PanopticPool.sol",
"` (1183 nSLOC - main orchestrator \n",
"  with dispatch entry points), `",
"SemiFungiblePositionManager.sol",
"` (673 nSLOC - \n",
"  position engine handling multi-leg TokenId encoding), \n",
"  `",
"SemiFungiblePositionManagerV4.sol",
"` (631 nSLOC - V4 compatibility)\n",
"\n",
"* **Risk & Collateral**: `",
"RiskEngine.sol",
"` (1294 nSLOC - solvency calculations, \n",
"  liquidation bonuses, force exercise costs), `",
"CollateralTracker.sol",
"` (863 nSLOC - \n",
"  ERC4626 vaults with share accounting, interest accrual, virtual shares)\n",
"\n",
"* **Oracle & Math**: `",
"OraclePack.sol",
"` (291 nSLOC - multi-oracle system with EMA \n",
"  safeguards), `",
"PanopticMath.sol",
"` (369 nSLOC - options pricing and conversions), \n",
"  `",
"Math.sol",
"` (641 nSLOC - generic mathematical utilities)\n",
"\n",
"* **Types & Parameters**: `",
"RiskParameters.sol",
"` (72 nSLOC - protocol parameters), \n",
"  `",
"MarketState.sol",
"` (65 nSLOC - interest rate state), `",
"PoolData.sol",
"` (42 nSLOC - \n",
"  pool configuration), `",
"TokenId.sol",
"` (232 nSLOC - position encoding)\n",
"\n",
"**Files in Scope**: ",
qf_scope_label,
" in the `contracts/` directory. \n",
"**Test files** under `./test/` are **out of scope** for vulnerability analysis \n",
"but may be referenced for understanding expected behavior.\n",
"\n"
]

def qf_context : String := strJoin qf_context_parts

def qf_mission_parts : List String := [
"**YOUR INVESTIGATION MISSION:**\n",
"\n",
"Accept the premise of the security question and explore **all** relevant \n",
"code paths, data structures, state transitions, and cross-contract \n",
"interactions related to it. Do not settle for surface observations—trace \n",
"execution flows through position minting → risk validation → collateral \n",
"management → liquidation flows.\n",
"\n",
"Your goal is to find **one** concrete, exploitable vulnerability tied to \n",
"the question that an attacker, liquidator, or malicious user could exploit. \n",
"Focus on: \n",
"\n",
"* Business-logic flaws (incorrect validation, missing checks)\n",
"* Mathematical errors (overflow, underflow, precision loss, rounding)\n",
"* Race conditions (concurrent position operations, share accounting)\n",
"* Oracle manipulation (price feeds, TWAP calculations)\n",
"* Collateral calculation bugs (margin requirements, cross-collateralization)\n",
"* Liquidation vulnerabilities (bonus extraction, premature liquidation)\n",
"* Premium settlement errors (distribution, haircutting)\n",
"* Interest accrual manipulation (index calculations, rate determination)\n",
"* Share supply attacks (minting, burning, virtual shares)\n",
"* Position encoding exploits (TokenId manipulation, leg bypass)\n",
"\n"
]

def qf_mission : String := strJoin qf_mission_parts

def qf_surface_parts : List String := [
"**ATTACK SURFACE EXPLORATION:**\n",
"\n",
"1. **Position Minting/Burning** (`",
"PanopticPool.sol",
"`, `",
"SemiFungiblePositionManager.sol",
"`):\n",
"   - TokenId encoding with invalid tick ranges or liquidity amounts\n",
"   - Position size limits bypass through multi-leg strategies\n",
"   - Solvency check timing between oracle and current ticks\n",
"   - Commission calculation errors on mint/burn operations\n",
"   - Premium settlement race conditions during position closure\n",
"   - Force exercise cost calculation manipulation\n",
"   - Position balance tracking inconsistencies\n",
"\n",
"2. **Risk Calculations** (`",
"RiskEngine.sol",
"`):\n",
"   - Collateral requirement calculation errors\n",
"   - Cross-collateralization buffer miscalculation\n",
"   - Liquidation bonus extraction beyond intended amounts\n",
"   - Solvency check failures at extreme price movements\n",
"   - Interest rate model manipulation through utilization attacks\n",
"   - Oracle delta threshold bypass enabling manipulation\n",
"   - Force exercise cost rounding errors\n",
"\n",
"3. **Collateral Management** (`",
"CollateralTracker.sol",
"`):\n",
"   - Share price manipulation through asset accounting errors\n",
"   - Virtual share delegation/revoke race conditions\n",
"   - Interest accrual calculation bugs enabling unlimited minting\n",
"   - Share supply overflow preventing all operations\n",
"   - Premium settlement distribution errors\n",
"   - Liquidation bonus settlement vulnerabilities\n",
"   - Deposit/withdrawal limit bypasses\n",
"\n",
"4. **Oracle System** (`",
"OraclePack.sol",
"`, `",
"PanopticMath.sol",
"`):\n",
"   - Price manipulation through EMA oracle attacks\n",
"   - TWAP calculation insufficient time windows\n",
"   - Safe mode activation failures\n",
"   - Price conversion rounding errors\n",
"   - Oracle tick inconsistency between operations\n",
"   - Median tick buffer manipulation\n",
"\n",
"5. **Liquidation Mechanism** (`",
"PanopticPool.sol",
"`, `",
"RiskEngine.sol",
"`):\n",
"   - Premature liquidation through oracle manipulation\n",
"   - Liquidation bonus extraction exceeding collateral\n",
"   - Premium haircutting failures causing protocol loss\n",
"   - Partial liquidation leaving residual positions\n",
"   - Liquidatee collateral calculation errors\n",
"   - Force liquidation during stale oracle conditions\n",
"\n",
"6. **Interest Rate System** (`",
"MarketState.sol",
"`, `",
"RiskEngine.sol",
"`):\n",
"   - Borrow index manipulation enabling interest theft\n",
"   - Utilization calculation errors affecting rates\n",
"   - Compound interest calculation overflow/underflow\n",
"   - Rate boundary violations (exceeding min/max)\n",
"   - Interest state corruption blocking withdrawals\n",
"\n",
"7. **Premium Settlement** (`",
"PanopticPool.sol",
"`, `",
"CollateralTracker.sol",
"`):\n",
"   - Premium accumulation manipulation\n",
"   - Settled token accounting errors\n",
"   - Gross premium calculation inaccuracies\n",
"   - Premium distribution ratio errors\n",
"   - Long premium settlement failures\n",
"\n",
"8. **Mathematical Operations** (`",
"PanopticMath.sol",
"`, `",
"Math.sol",
"`):\n",
"   - Price conversion rounding errors\n",
"   - Liquidity calculation overflow/underflow\n",
"   - Square root price calculation errors\n",
"   - Token amount conversion precision loss\n",
"   - Tick-to-price conversion manipulation\n",
"\n"
]

def qf_surface : String := strJoin qf_surface_parts

def qf_vectors_parts : List String := [
"**PANOPTIC-SPECIFIC ATTACK VECTORS:**\n",
"\n",
"- **Collateral Undercalculation**: Can attackers manipulate position parameters to \n",
"  reduce collateral requirements below actual risk, enabling undercollateralized positions?\n",
"- **Oracle Manipulation**: Can attackers manipulate EMA or TWAP oracles to trigger \n",
"  profitable liquidations or force exercises?\n",
"- **Liquidation Bonus Extraction**: Can liquidators extract bonuses exceeding the \n",
"  liquidatee's collateral through calculation errors?\n",
"- **Share Price Manipulation**: Can attackers manipulate share price calculations \n",
"  to drain assets from CollateralTracker vaults?\n",
"- **Interest Accrual Bugs**: Can interest calculation errors enable unlimited asset \n",
"  minting or interest avoidance?\n",
"- **Premium Settlement Exploits**: Can attackers manipulate premium accumulation \n",
"  or settlement to extract value from other users?\n",
"- **Position Encoding Attacks**: Can invalid TokenId encoding brick positions \n",
"  permanently or bypass position limits?\n",
"- **Cross-Collateralization Bypass**: Can attackers exploit cross-collateral \n",
"  calculations to become systemically undercollateralized?\n",
"- **Force Exercise Cost Errors**: Can incorrect cost calculations enable \n",
"  profitable forced exercises at victims' expense?\n",
"- **Virtual Share Exploits**: Can delegation/revoke mechanisms be exploited to \n",
"  manipulate share supply or bypass restrictions?\n",
"- **Protocol Loss Extraction**: Can attackers cause protocol loss and extract \n",
"  value through premium haircutting failures?\n",
"- **Solvency Check Timing**: Can timing differences between oracle and current \n",
"  ticks enable liquidation manipulation?\n",
"- **Interest Rate Manipulation**: Can utilization manipulation affect interest \n",
"  rates to enable borrowing attacks?\n",
"- **Commission Calculation Errors**: Can commission calculation errors enable \n",
"  fee avoidance or excessive charges?\n",
"- **TWAP Deviation Bypass**: Can attackers bypass TWAP deviation limits to \n",
"  liquidate at manipulated prices?\n",
"\n"
]

def qf_vectors : String := strJoin qf_vectors_parts

def qf_trust_parts : List String := [
"**TRUST MODEL:**\n",
"\n",
"**Trusted Roles**: Uniswap pools, oracle data providers, guardian addresses. \n",
"Do **not** assume these actors behave maliciously unless the question explicitly \n",
"explores compromised oracle or Uniswap scenarios.\n",
"\n",
"**Untrusted Actors**: Any user minting/burning positions, liquidators, force \n",
"exercisers, attackers attempting price manipulation. Focus your analysis on bugs \n",
"exploitable by untrusted actors without requiring oracle compromise or Uniswap \n",
"manipulation.\n",
"\n"
]

def qf_trust : String := strJoin qf_trust_parts

def qf_exclusions_parts : List String := [
"**KNOWN ISSUES / EXCLUSIONS:**\n",
"\n",
"- Cryptographic primitives (ECDSA, SHA256) are assumed secure\n",
"- Uniswap pool manipulation (assumed resistant to flash loan attacks)\n",
"- Oracle data accuracy (oracles are trusted to provide correct data)\n",
"- Network-level attacks (DDoS, BGP hijacking, DNS poisoning)\n",
"- EVM runtime bugs unrelated to Panoptic code\n",
"- Social engineering, phishing, or key theft\n",
"- Gas optimization, code style, missing comments\n",
"- Precision loss <0.01% in fee calculations\n",
"- Test file issues (tests are out of scope)\n",
"- Market risk (price movements) unless caused by protocol bugs\n",
"- MEV or front-running attacks unless enabled by protocol vulnerabilities\n",
"\n"
]

def qf_exclusions : String := strJoin qf_exclusions_parts

def qf_severity_parts : List String := [
qf_severity_header,
"\n",
"\n",
"**Critical Severity**:\n",
"- Direct loss of funds (theft of user collateral or protocol assets)\n",
"- Permanent freezing of funds (fix requires hardfork)\n",
"- Protocol insolvency leading to systemic loss\n",
"\n",
"**High Severity**:\n",
"- Temporary freezing of funds with economic loss\n",
"- Systemic undercollateralization risks\n",
"- Widespread position liquidations due to bugs\n",
"\n",
"**Medium Severity**:\n",
"- Economic manipulation benefiting attackers\n",
"- State inconsistencies requiring manual intervention\n",
"- Premium or interest calculation errors\n",
"- Gas griefing or DoS vulnerabilities\n",
"\n",
"**Low/QA (out of scope)**:\n",
"- Minor precision loss (<0.01%)\n",
"- Gas inefficiencies\n",
"- Event emission or logging issues\n",
"- Non-critical edge cases with no financial impact\n",
"- UI/UX issues\n",
"\n"
]

def qf_severity : String := strJoin qf_severity_parts

def qf_output_parts : List String := [
"**OUTPUT REQUIREMENTS:**\n",
"\n",
"If you discover a valid vulnerability related to the security question, \n",
"produce a **full report** following the format below. Your report must include: \n",
"- Exact file paths and function names\n",
"- Code quotations (actual snippets from the 11 in-scope contracts)\n",
"- Step-by-step exploitation path with realistic parameters\n",
"- Clear explanation of which invariant is broken\n",
"- Impact quantification (fund loss amount, collateral affected)\n",
"- Likelihood assessment (attacker profile, preconditions, complexity)\n",
"- Concrete recommendation with code fix\n",
"- Proof of Concept (Solidity test demonstrating the exploit)\n",
"\n",
"If **no** valid vulnerability emerges after thorough investigation, state exactly: \n",
"`",
noVulnSentinel,
"`\n",
"\n",
"**Do not fabricate or exaggerate issues.** Only concrete, exploitable bugs with \n",
"clear attack paths and realistic impact count.\n",
"\n",
"**Do not** report: \n",
"- Known issues from previous audits or documentation\n",
"- Out-of-scope problems (test files, EVM bugs, crypto primitive breaks)\n",
"- Theoretical vulnerabilities without clear attack path and PoC\n",
"- Issues requiring trusted roles to behave maliciously\n",
"- Minor optimizations, style issues, or low-severity findings\n",
"\n",
"**Focus on one high-quality finding** rather than multiple weak claims.\n",
"\n",
"**VALIDATION CHECKLIST (Before Reporting):**\n",
"- [ ] Vulnerability lies within one of the 11 in-scope contracts (not test/)\n",
"- [ ] Exploitable by unprivileged attacker (no oracle/Uniswap collusion required)\n",
"- [ ] Attack path is realistic with correct data types and feasible parameters\n",
"- [ ] Impact meets Critical, High, or Medium severity per Immunefi scope\n",
"- [ ] PoC can be implemented as Solidity test or transaction sequence\n",
"- [ ] Issue breaks at least one documented invariant\n",
"- [ ] Not a known exclusion\n",
"- [ ] Clear financial harm, collateral loss, or state divergence demonstrated\n",
"\n",
"---\n",
"\n",
"**AUDIT REPORT FORMAT** (if vulnerability found):\n",
"\n",
"Audit Report\n",
"\n",
"## Title \n",
"The Title Of the Report \n",
"\n",
"## Summary\n",
"A short summary of the issue, keep it brief.\n",
"\n",
"## Finding Description\n",
"A more detailed explanation of the issue. Poorly written or incorrect findings may result in rejection and a decrease of reputation score.\n",
"\n",
"Describe which security guarantees it breaks and how it breaks them. If this bug does not automatically happen, showcase how a malicious input would propagate through the system to the part of the code where the issue occurs.\n",
"\n",
"## Impact Explanation\n",
"Elaborate on why you've chosen a particular impact assessment.\n",
"\n",
"## Likelihood Explanation\n",
"Explain how likely this is to occur and why.\n",
"\n",
"\n",
"## Recommendation\n",
"How can the issue be fixed or solved. Preferably, you can also add a snippet of the fixed code here.\n",
"\n",
"\n",
"## Proof of Concept\n",
"A proof of concept is normally required for Critical, High and Medium Submissions for reviewers under 80 reputation points. Please check the competition page for more details, otherwise your submission may be rejected by the judges.\n",
"Very important the test function using their test must bbe provided in here and pls it must be able to compile and run successfully\n",
"\n",
"**Remember**: False positives harm credibility more than missed findings.  Assume claims are invalid until overwhelming evidence proves otherwise.\n",
"\n",
"**Now perform STRICT validation of the claim above.**\n",
"\n",
"**Output ONLY:**\n",
"- A full audit report (if genuinely valid after passing **all** checks above) following the specified format\n",
"                                                                                                      - `",
noVulnSentinel,
"` (if **any** check fails)\n",
"\n",
"                                                                                                      **Be ruthlessly skeptical.  The bar for validity is EXTREMELY valid.**\n"
]

def qf_output : String := strJoin qf_output_parts

def qf_tail_parts : List String :=
  qf_context_parts ++ (qf_invariants_parts ++ (qf_mission_parts ++ (qf_surface_parts ++ (qf_vectors_parts ++ (qf_trust_parts ++ (qf_exclusions_parts ++ (qf_severity_parts ++ (qf_output_parts))))))))

def qf_parts (question : String) : List String :=
  qf_persona_parts ++ ([qf_qlabel] ++ ([question] ++ qf_tail_parts))

def question_format (question : String) : String := strJoin (qf_parts question)

def vf_persona_parts : List String := [
"\n",
"You are an **Elite DeFi Security Judge** with deep expertise in options trading protocols, collateralized lending systems, oracle manipulation resistance, Uniswap V3/V4 integrations, and Immunefi bug bounty validation. Your ONLY task is **ruthless technical validation** of security claims against the Panoptic codebase.\n",
"\n",
"Note: Uniswap pools and oracle providers are trusted roles.\n",
"\n"
]

def vf_persona : String := strJoin vf_persona_parts

def vf_claim_label : String :=
  "**SECURITY CLAIM TO VALIDATE:**\n"

def vf_body_parts : List String := [
"\n",
"\n",
"========================================",
"========================================\n",
"## **PANOPTIC PROTOCOL VALIDATION FRAMEWORK**\n",
"\n",
"### **PHASE 1: IMMEDIATE DISQUALIFICATION CHECKS**\n",
"Reject immediately (`#NoVulnerability`) if **ANY** apply:\n",
"\n",
"#### **A. Scope Violations**\n",
"- ❌ Affects files **not** in the 11 in-scope contracts from `contracts/` directory\n",
"- ❌ Targets any file under `./test/` directory (tests are out of scope)\n",
"- ❌ Claims about documentation, comments, code style, or logging (not security issues)\n",
"- ❌ Focuses on out-of-scope components: UI, wallets, SDKs, deployment scripts, or external dependencies\n",
"\n",
vf_inscope_label,
"\n",
"- **Core Protocol**: `",
"PanopticPool.sol",
"` (1183 nSLOC), `",
"RiskEngine.sol",
"` (1294 nSLOC), `",
"CollateralTracker.sol",
"` (863 nSLOC)\n",
"- **Position Management**: `",
"SemiFungiblePositionManager.sol",
"` (673 nSLOC), `",
"SemiFungiblePositionManagerV4.sol",
"` (631 nSLOC)\n",
"- **Types**: `",
"OraclePack.sol",
"` (291 nSLOC), `",
"MarketState.sol",
"` (65 nSLOC), `",
"PoolData.sol",
"` (42 nSLOC), `",
"RiskParameters.sol",
"` (72 nSLOC), `",
"TokenId.sol",
"` (232 nSLOC)\n",
"- **Libraries**: `",
"PanopticMath.sol",
"` (369 nSLOC), `",
"Math.sol",
"` (641 nSLOC)\n",
"\n",
"**Verify**: Check that every file path cited in the report matches exactly one of the 11 in-scope contracts.\n",
"\n",
"#### **B. Threat Model Violations**\n",
"- ❌ Requires Uniswap pool manipulation or compromise (Uniswap pools are trusted)\n",
"- ❌ Assumes compromised oracle data feed providers (oracles are trusted to provide correct data)\n",
"- ❌ Needs guardian address to act maliciously (guardian is trusted role)\n",
"- ❌ Requires attacker to compromise EVM runtime or block consensus\n",
"- ❌ Assumes cryptographic primitives (ECDSA, SHA256) are broken\n",
"- ❌ Depends on network-level attacks: DDoS, BGP hijacking, DNS poisoning\n",
"- ❌ Relies on social engineering, phishing, key theft, or user operational security failures\n",
"\n",
"**Trusted Roles**: Uniswap pools provide liquidity and price feeds; oracles provide signed data; guardian can lock/unlock pools in emergencies. Do **not** assume these actors behave maliciously.\n",
"\n",
"**Untrusted Actors**: Any user minting/burning positions, liquidators, force exercisers, attackers attempting price manipulation.\n",
"\n",
"#### **C. Known Issues / Accepted Risks** [1](#4-0) \n",
"- ❌ Price/oracle manipulation that is not atomic or requires holding price across multiple blocks\n",
"- ❌ Attacks stemming from EMA oracles being stale compared to market price (2-30 minutes)\n",
"- ❌ Premium manipulation by swapping back and forth in Uniswap (if not profitable between own accounts)\n",
"- ❌ Liquidators extracting additional profit through less favorable force exercise prices\n",
"- ❌ Share supply approaching 2^256-1 causing reverts/overflows from repeated liquidations\n",
"- ❌ Rounding direction inflating gross premium and decreasing seller rates (low-decimal pools)\n",
"- ❌ Options buyers avoiding small premium payments via settleLongPremium\n",
"- ❌ Premium accumulation permanently capped due to low liquidity earning high fees\n",
"\n",
"#### **D. Non-Security Issues**\n",
"- ❌ Gas optimizations, performance improvements, or micro-optimizations\n",
"- ❌ Code style, naming conventions, or refactoring suggestions\n",
"- ❌ Missing events, logs, error messages, or better user experience\n",
"- ❌ NatSpec comments, documentation improvements, or README updates\n",
"- ❌ \"Best practices\" recommendations with no concrete exploit scenario\n",
"- ❌ Input validation preventing honest user mistakes unless it allows theft\n",
"- ❌ Minor precision errors with negligible financial impact (<0.01%)\n",
"\n",
"#### **E. Invalid Exploit Scenarios**\n",
"- ❌ Requires impossible inputs: negative liquidity, invalid tick ranges, timestamps beyond realistic bounds\n",
"- ❌ Cannot be triggered through any realistic dispatch() call or position operation\n",
"- ❌ Depends on calling internal functions not exposed through any public API\n",
"- ❌ Relies on race conditions that are prevented by reentrancy guards or atomic operations\n",
"- ❌ Needs multiple coordinated transactions with no economic incentive\n",
"- ❌ Requires attacker to already possess the collateral they seek to steal\n",
"- ❌ Depends on miner/validator controlling block timestamp beyond reasonable bounds\n",
"\n",
"### **PHASE 2: PANOPTIC-SPECIFIC DEEP CODE VALIDATION**\n",
"\n",
"#### **Step 1: TRACE COMPLETE EXECUTION PATH THROUGH OPTIONS ARCHITECTURE**\n",
"\n",
"**Panoptic Flow Patterns:**\n",
"\n",
"1. **Position Minting Flow**:\n",
"   User deposits collateral → `CollateralTracker.deposit()` → `PanopticPool.dispatch(MINT_ACTION)` → `RiskEngine.isAccountSolvent()` → `SemiFungiblePositionManager.mintTokenizedPosition()` → Uniswap pool liquidity added → `CollateralTracker.delegate()` → commission collected\n",
"\n",
"2. **Position Burning Flow**:\n",
"   User calls `PanopticPool.dispatch(BURN_ACTION)` → `RiskEngine.isAccountSolvent()` → `SemiFungiblePositionManager.burnTokenizedPosition()` → Uniswap liquidity removed → `CollateralTracker._settlePremium()` → `CollateralTracker.revoke()` → collateral refunded\n",
"\n",
"3. **Liquidation Flow**:\n",
"   Liquidator calls `PanopticPool.liquidateAccount()` → `RiskEngine.isAccountSolvent()` returns false → `RiskEngine.getLiquidationBonus()` → close all positions → liquidator receives bonus → protocol loss handled via share minting\n",
"\n",
"4. **Force Exercise Flow**:\n",
"   Force exerciser calls `PanopticPool.forceExercise()` → `RiskEngine.exerciseCost()` calculated → payment to exercised user → liquidity added back to Uniswap → positions updated\n",
"\n",
"For each claim, reconstruct the entire execution path:\n",
"\n",
"1. **Identify Entry Point**: Which user-facing function is called? (`dispatch()`, `dispatchFrom()`, `liquidateAccount()`, `forceExercise()`, etc.)\n",
"2. **Follow Internal Calls**: Trace through all function calls, including:\n",
"   - Solvency checks in `RiskEngine.isAccountSolvent()`\n",
"   - Collateral calculations in `CollateralTracker`\n",
"   - Position operations in `SemiFungiblePositionManager`\n",
"   - Oracle reads from `OraclePack`\n",
"3. **State Before Exploit**: Document initial state (collateral balances, positions, oracle ticks, utilization)\n",
"4. **State Transitions**: Enumerate all changes (collateral movements, position updates, share minting/burning)\n",
"5. **Check Protections**: Verify if reentrancy guards, solvency checks, or mathematical constraints prevent the exploit\n",
"6. **Final State**: Show how the exploit results in unauthorized state (collateral loss, insolvency, share manipulation)\n",
"\n",
"#### **Step 2: VALIDATE EVERY CLAIM WITH CODE EVIDENCE**\n",
"\n",
"For **each assertion** in the report, demand:\n",
"\n",
"**✅ Required Evidence:**\n",
"- Exact file path and line numbers (e.g., `",
"RiskEngine.sol",
":450-475`) within the 11 in-scope contracts\n",
"- Direct Solidity code quotes showing the vulnerable logic\n",
"- Call traces with actual parameter values demonstrating how execution reaches the vulnerable line\n",
"- Calculations showing how collateral, shares, or positions change incorrectly\n",
"- References to specific invariant violations\n",
"\n",
"**🚩 RED FLAGS (indicate INVALID):**\n",
"\n",
"1. **\"Missing Validation\" Claims**:\n",
"   - ❌ Invalid unless report shows input bypasses *all* validation layers:\n",
"     - `PanopticPool.dispatch()` checks\n",
"     - `RiskEngine.isAccountSolvent()` checks\n",
"     - `CollateralTracker` balance checks\n",
"     - Uniswap pool constraints\n",
"   - ✅ Valid if a specific input type genuinely has no validation path\n",
"\n",
"2. **\"Collateral Undercalculation\" Claims**:\n",
"   - ❌ Invalid unless report demonstrates:\n",
"     - `RiskEngine` calculations produce insufficient collateral requirements\n",
"     - Attacker can open undercollateralized positions that pass solvency checks\n",
"     - Specific mathematical error in collateral calculation\n",
"   - ✅ Valid if collateral requirements can be bypassed through calculation errors\n",
"\n",
"3. **\"Share Price Manipulation\" Claims**:\n",
"   - ❌ Invalid unless report demonstrates:\n",
"     - `CollateralTracker.totalAssets()` or `totalSupply()` can be manipulated\n",
"     - Share price (`totalAssets() / totalSupply()`) decreases unexpectedly\n",
"     - Attacker can drain assets through share price manipulation\n",
"   - ✅ Valid if share accounting allows asset drainage\n",
"\n",
"4. **\"Oracle Manipulation\" Claims**:\n",
"   - ❌ Invalid unless report demonstrates:\n",
"     - Protocol accepts manipulated oracle prices without safe mode activation\n",
"     - Attacker can profit from liquidations using manipulated prices\n",
"     - Bypass of oracle delta limits or TWAP constraints\n",
"   - ✅ Valid if oracle safeguards can be bypassed for profit\n",
"\n",
"5. **\"Liquidation Bonus Extraction\" Claims**:\n",
"   - ❌ Invalid unless report demonstrates:\n",
"     - `RiskEngine.getLiquidationBonus()` calculates excessive bonuses\n",
"     - Bonus exceeds liquidatee's collateral balance\n",
"     - Protocol loss occurs due to bonus overpayment\n",
"   - ✅ Valid if liquidation bonuses can be extracted beyond intended limits\n",
"\n",
"6. **\"Interest Accrual Bugs\" Claims**:\n",
"   - ❌ Invalid unless report demonstrates:\n",
"     - `CollateralTracker._accrueInterest()` miscalculates interest\n",
"     - `borrowIndex` fails to be monotonically increasing\n",
"     - Attacker can mint unlimited assets through interest manipulation\n",
"   - ✅ Valid if interest calculations enable unlimited asset minting\n",
"\n",
"7. **\"Position Encoding\" Claims**:\n",
"   - ❌ Invalid unless report demonstrates:\n",
"     - `TokenId` encoding allows invalid tick ranges or liquidity\n",
"     - Position size limits can be bypassed through encoding tricks\n",
"     - Invalid encoding bricks positions permanently\n",
"   - ✅ Valid if TokenId manipulation enables position bypasses\n",
"\n",
"8. **\"Premium Settlement\" Claims**:\n",
"   - ❌ Invalid unless report demonstrates:\n",
"     - `_settlePremium()` incorrectly distributes premium\n",
"     - Premium accumulation can be manipulated for profit\n",
"     - Settled premium calculation errors cause fund loss\n",
"   - ✅ Valid if premium settlement allows value extraction\n",
"\n",
"9. **\"Cross-Collateralization\" Claims**:\n",
"   - ❌ Invalid unless report demonstrates:\n",
"     - Cross-buffer ratio calculation is incorrect\n",
"     - Systemic undercollateralization can occur\n",
"     - Cross-collateral limits can be bypassed\n",
"   - ✅ Valid if cross-collateral calculations cause systemic risk\n",
"\n",
"10. **\"Mathematical Overflow\" Claims**:\n",
"    - ❌ Invalid unless report demonstrates:\n",
"      - Specific arithmetic operation overflows/underflows\n",
"      - Overflow causes incorrect collateral or position calculations\n",
"      - Attacker can exploit overflow for fund theft\n",
"    - ✅ Valid if mathematical errors enable fund loss\n",
"\n",
"#### **Step 3: CROSS-REFERENCE WITH TEST SUITE**\n",
"\n",
"Panoptic's test suite includes comprehensive tests in `test/foundry/` directory (out of scope but informative). Ask:\n",
"\n",
"1. **Existing Coverage**: Do current tests handle the scenario? Check tests like:\n",
"   - `test/foundry/core/PanopticPool.t.sol` - dispatch operations\n",
"   - `test/foundry/core/RiskEngine/` - solvency calculations\n",
"   - `test/foundry/core/CollateralTracker.t.sol` - share accounting\n",
"   - `test/foundry/libraries/PanopticMath.t.sol` - mathematical operations\n",
"\n",
"2. **Test Gaps**: Is there an obvious gap that would allow the exploit? If scenario is untested, suggest adding test but do **not** assume vulnerability.\n",
"\n",
"3. **Invariant Tests**: Would existing invariant checks catch the bug? Tests verify:\n",
"   - Solvency maintenance across all operations\n",
"   - Share price monotonicity\n",
"   - Interest index monotonicity\n",
"   - Collateral conservation\n",
"   - Position size limits\n",
"\n",
"4. **PoC Feasibility**: Can the report's PoC be implemented as a Foundry test using existing contracts without modifying core code?\n",
"\n",
"**Test Case Realism Check**: PoCs must use realistic position structures, valid TokenId encoding, proper collateral amounts, and respect protocol constraints.\n",
"\n",
"### **PHASE 3: IMPACT & EXPLOITABILITY VALIDATION**\n",
"\n",
"#### **Impact Must Be CONCRETE and ALIGN WITH IMMUNEFI SCOPE**\n",
"\n",
"**✅ Valid CRITICAL Severity Impacts (per Immunefi Panoptic scope):**\n",
"\n",
"1. **Direct Loss of Funds (Critical)**:\n",
"   - Theft of user collateral from CollateralTracker vaults\n",
"   - Theft of protocol assets through share manipulation\n",
"   - Unauthorized spending of user deposits\n",
"   - Collateral drainage through mathematical exploits\n",
"   - Example: \"Share price manipulation allows attacker to drain 1000 ETH from CollateralTracker\"\n",
"\n",
"2. **Protocol Insolvency (Critical)**:\n",
"   - Systemic undercollateralization causing protocol-wide losses\n",
"   - Collateral requirements calculation errors enabling mass undercollateralization\n",
"   - Share supply overflow preventing all operations\n",
"   - Example: \"Cross-collateralization bug allows all positions to become undercollateralized simultaneously\"\n",
"\n",
"3. **Permanent Freezing of Funds (Critical)**:\n",
"   - Funds locked with no transaction able to unlock them\n",
"   - Position encoding bricking addresses permanently\n",
"   - Share supply overflow preventing withdrawals\n",
"   - Invalid position structure locking collateral permanently\n",
"   - Example: \"TokenId encoding bug locks 500 USDC collateral permanently\"\n",
"\n",
"**✅ Valid HIGH Severity Impacts:**\n",
"\n",
"4. **Temporary Freezing with Economic Loss (High)**:\n",
"   - Funds temporarily frozen causing economic damage\n",
"   - Widespread position liquidations due to bugs\n",
"   - Systemic undercollateralization risks\n",
"   - Example: \"Liquidation bug causes 100 positions to be liquidated unnecessarily\"\n",
"\n",
"**✅ Valid MEDIUM Severity Impacts:**\n",
"\n",
"5. **Economic Manipulation (Medium)**:\n",
"   - Premium accumulation manipulation benefiting attackers\n",
"   - Interest rate manipulation through utilization attacks\n",
"   - Liquidation bonus extraction beyond intended amounts\n",
"   - State inconsistencies requiring manual intervention\n",
"   - Example: \"Premium settlement bug allows attacker to extract 10 ETH in excess premiums\"\n",
"\n",
"6. **State Inconsistencies (Medium)**:\n",
"   - Premium or interest calculation errors\n",
"   - Gas griefing or DoS vulnerabilities\n",
"   - Oracle state divergence between components\n",
"   - Example: \"Interest accrual bug causes 5% error in interest calculations\"\n",
"\n",
"**❌ Invalid \"Impacts\":**\n",
"\n",
"- User withdraws their own funds (normal protocol operation)\n",
"- Attacker loses their own funds through self-draining (not an exploit)\n",
"- Theoretical cryptographic weaknesses without practical exploit\n",
"- General market risk (price movements) unless caused by protocol bugs\n",
"- \"Could be problematic if...\" statements without concrete exploit path\n",
"- Minor fee overpayment or underpayment (<0.1% of transaction value)\n",
"- Precision loss <0.01% across reasonable transaction volumes\n",
"\n",
"#### **Likelihood Reality Check**\n",
"\n",
"Assess exploit feasibility:\n",
"\n",
"1. **Attacker Profile**:\n",
"   - Any user with ETH/USDC to deposit as collateral? ✅ Likely\n",
"   - Liquidator monitoring for undercollateralized positions? ✅ Possible\n",
"   - Force exerciser looking for profitable opportunities? ✅ Possible\n",
"   - Attacker with ability to manipulate Uniswap pools? ❌ Unlikely (trusted role)\n",
"   - Compromised oracle provider? ❌ Impossible (trusted role)\n",
"\n",
"2. **Preconditions**:\n",
"   - Normal market operation? ✅ High likelihood\n",
"   - High pool utilization? ✅ Possible during volatile periods\n",
"   - Specific position structure (e.g., maximum legs)? ✅ Attacker-controlled\n",
"   - Specific oracle state (e.g., stale prices)? ✅ Attacker can time submission\n",
"   - Network congestion or high gas prices? ✅ Possible but not required\n",
"\n",
"3. **Execution Complexity**:\n",
"   - Single dispatch call? ✅ Simple\n",
"   - Multiple coordinated transactions? ✅ Moderate (attacker controls)\n",
"   - Complex position with multiple legs? ✅ Attacker can deploy\n",
"   - Requires precise timing or front-running? ⚠️ Higher complexity\n",
"   - Requires mathematical precision? ✅ Attacker can calculate\n",
"\n",
"4. **Economic Cost**:\n",
"   - Collateral deposit required? ✅ Attacker-determined (can be minimal)\n",
"   - Gas costs for transactions? ✅ Moderate\n",
"   - Potential profit vs. cost? ✅ Must be positive for valid exploit\n",
"   - Liquidation capital required? ✅ Varies by opportunity\n",
"\n",
"5. **Combined Probability**:\n",
"   - Multiply probabilities of all conditions\n",
"   - If resulting likelihood <0.1% with no economic incentive → Invalid\n",
"   - If exploit is profitable and feasible → Valid\n",
"\n",
"### **PHASE 4:\n",
"\n",
"Wiki pages you might want to explore:\n",
"- [Panoptic Protocol Overview (code-423n4/2025-12-panoptic)](/wiki/code-423n4/2025-12-panoptic#1)\n",
"\n",
"### Citations\n",
"\n",
"**File:** README.md (L53-90)\n",
"```markdown\n",
"## Publicly known issues\n",
"\n",
"_Anything included in this section and its subsection is considered a publicly known issue and is therefore ineligible for awards._\n",
"\n",
"**System & Token Limitations**\n",
"\n",
"- Transfers of ERC1155 SFPM tokens has been disabled.\n",
"- Construction helper functions (prefixed with add) in the TokenId library and other types do not perform extensive input validation. Passing invalid or nonsensical inputs into these functions or attempting to overwrite already filled slots may yield unexpected or invalid results. This is by design, so it is expected that users of these functions will validate the inputs beforehand.\n",
"- Tokens with a supply exceeding 2^127 - 1 are not supported.\n",
"- If one token on a pool is broken/does not meet listed criteria/is malicious there are no guarantees as to the security of the other token in that pool, as long as other pools with two legitimate and compliant tokens are not affected.\n",
"\n",
"**Oracle & Price Manipulation**\n",
"\n",
"- Price/oracle manipulation that is not atomic or requires attackers to hold a price across more than one block is not in scope -i.e., to manipulate the internal exponential moving averages (EMAs), you need to set the manipulated price and then keep it there for at least 1 minute until it can be updated again.\n",
"- Attacks that stem from the EMA oracles being extremely stale compared to the market price within its period (currently between 2-30 minutes)\n",
"- As a general rule, only price manipulation issues that can be triggered by manipulating the price atomically from a normal pool/oracle state are valid\n",
"\n",
"**Protocol Parameters**\n",
"\n",
"- The constants VEGOID, EMA_PERIODS, MAX_TICKS_DELTA, MAX_TWAP_DELTA_LIQUIDATION, MAX_SPREAD, BP_DECREASE_BUFFER, MAX_CLAMP_DELTA, NOTIONAL_FEE, PREMIUM_FEE, PROTOCOL_SPLIT, BUILDER_SPLIT, SELLER_COLLATERAL_RATIO, BUYER_COLLATERAL_RATIO, MAINT_MARGIN_RATE, FORCE_EXERCISE_COST, TARGET_POOL_UTIL, SATURATED_POOL_UTIL, MAX_OPEN_LEGS, and the IRM parameters (CURVE_STEEPNESS, TARGET_UTILIZATION, etc.) are all parameters and subject to change, but within reasonable levels.\n",
"\n",
"**Premium & Liquidation Issues**\n",
"\n",
"- Given a small enough pool and low seller diversity, premium manipulation by swapping back and forth in Uniswap is a known risk. As long as it's not possible to do it between two of your own accounts profitably and doesn't cause protocol loss, that's acceptable\n",
"- It's known that liquidators sometimes have a limited capacity to force liquidations to execute at a less favorable price and extract some additional profit from that. This is acceptable even if it causes some amount of unnecessary protocol loss.\n",
"- It's possible to leverage the rounding direction to artificially inflate the total gross premium and significantly decrease the rate of premium option sellers earn/are able to withdraw (but not the premium buyers pay) in the future (only significant for very-low-decimal pools, since this must be done one token at a time).\n",
"- It's also possible for options buyers to avoid paying premium by calling settleLongPremium if the amount of premium owed is sufficiently small.\n",
"- Premium accumulation can become permanently capped if the accumulator exceeds the maximum value; this can happen if a low amount of liquidity earns a large amount of (token) fees\n",
"\n",
"**Gas & Execution Limitations**\n",
"\n",
"- The liquidator may not be able to execute a liquidation if MAX_POSITIONS is too high for the deployed chain due to an insufficient gas limit. This parameter is not final and will be adjusted by deployed chain such that the most expensive liquidation is well within a safe margin of the gas limit.\n",
"- It's expected that liquidators may have to sell options, perform force exercises, and deposit collateral to perform some liquidations. In some situations, the liquidation may not be profitable.\n",
"- In some situations (stale oracle tick), force exercised users will be worse off than if they had burnt their position.\n",
"\n",
"**Share Supply Issues**\n",
"\n",
"- It is feasible for the share supply of the CollateralTracker to approach 2**256 - 1 (given the token supply constraints, this can happen through repeated protocol-loss-causing liquidations), which can cause various reverts and overflows. Generally, issues with an extremely high share supply as a precondition (delegation reverts due to user's balance being too high, other DoS caused by overflows in calculations with share supply or balances, etc.) are not valid unless that share supply can be created through means other than repeated liquidations/high protocol loss.\n",
"```\n",
"\n",
vf_outreq_header,
"\n",
"\n",
"### **OUTPUT REQUIREMENTS**\n",
"\n",
"**If VALID (extremely rare—be ruthlessly sure):**\n",
"\n",
"Produce a full audit report with these sections and please make it short:\n",
"\n",
"#### **Title**\n",
"Precise vulnerability name (e.g., \"Share Price Manipulation in CollateralTracker Allows Asset Drainage\")\n",
"\n",
"#### **Summary**\n",
"Two to three sentences summarizing:\n",
"- What goes wrong\n",
"- Where in the codebase (file and function)\n",
"- Why it's critical (impact category)\n",
"\n",
"#### **Impact**\n",
"**Severity**: [Critical / High / Medium]\n",
"**Category**: [Direct Fund Loss / Permanent Fund Freeze / Protocol Insolvency / Economic Manipulation / State Inconsistency]\n",
"\n",
"Describe:\n",
"- Concrete financial impact or protocol disruption\n",
"- Affected parties (all users, liquidators, PLPs, specific addresses)\n",
"- Quantify potential loss (amount of ETH/USDC, collateral affected)\n",
"\n",
"#### **Finding Description**\n",
"\n",
"**Location**: `contracts/[filename].sol:[line_start]-[line_end]`, function `[functionName]()`\n",
"\n",
"**Intended Logic**: Expected behavior per protocol spec and invariants\n",
"\n",
"**Actual Logic**: Describe the flawed logic with exact code quotes\n",
"\n",
"**Code Evidence**:\n",
"```solidity\n",
"// Quote relevant code from the vulnerable file\n",
"// Include 5-10 lines of context\n",
"// Show the specific line(s) with the bug\n",
"```\n",
"\n",
"**Exploitation Path**:\n",
"1. **Preconditions**: Initial state (e.g., \"Attacker deposits 1 ETH collateral\")\n",
"2. **Step 1**: Specific action (e.g., \"Attacker mints position with manipulated TokenId\")\n",
"    - Position structure (legs, strikes, width, token amounts)\n",
"    - Code path: `PanopticPool.dispatch()` → `RiskEngine.isAccountSolvent()` → `CollateralTracker.delegate()`\n",
"3. **Step 2**: State change (e.g., \"Share price decreases due to accounting error\")\n",
"    - Storage state: `totalAssets()`, `totalSupply()`, `s_depositedAssets`\n",
"    - Oracle observations: Price ticks, EMA values\n",
"4. **Step 3**: Follow-up action (e.g., \"Attacker withdraws assets at inflated share price\")\n",
"    - Timing: Executed after share price manipulation\n",
"5. **Step 4**: Unauthorized outcome (e.g., \"Attacker drains 100 ETH from CollateralTracker\")\n",
"    - Invariant broken: Share price monotonicity violated, collateral conservation failed\n",
"\n",
"**Security Property Broken**: [Which of ",
vf_inv_count_ref,
" is violated]\n",
"- Example: \"Invariant #3: Share Price Monotonicity - Share price must be non-decreasing except for protocol-favorable rounding\"\n",
"\n",
"**Root Cause Analysis**:\n",
"Deep dive into why the bug exists:\n",
"- Missing share price validation in `CollateralTracker.settleLiquidation()`\n",
"- Incorrect asset accounting in `totalAssets()` calculation\n",
"- Race condition between `delegate()` and `revoke()` operations\n",
"- No overflow protection in share supply calculations\n",
"\n",
"#### **Impact Explanation**\n",
"\n",
"**Affected Assets**: [ETH, USDC, custom tokens, user collateral, protocol assets]\n",
"\n",
"**Damage Severity**:\n",
"- **Quantitative**: \"Attacker can drain arbitrary amounts limited only by available liquidity. Protocol-wide impact: all CollateralTracker vaults vulnerable.\"\n",
"- **Qualitative**: \"Complete loss of collateral integrity. Users cannot trust deposited funds.\"\n",
"\n",
"**User Impact**:\n",
"- **Who**: All PLPs, options buyers/sellers, liquidators\n",
"- **Conditions**: Exploitable during normal operation, worse during high volatility\n",
"- **Recovery**: Requires emergency pause and manual intervention\n",
"\n",
"**Systemic Risk**:\n",
"- Enables further attacks: Can be automated with bots\n",
"- Cascading effects: Share price manipulation affects all positions\n",
"- Detection difficulty: Requires forensic analysis of share accounting\n",
"\n",
"#### **Likelihood Explanation**\n",
"\n",
"**Attacker Profile**:\n",
"- **Identity**: Any user with ETH/USDC to deposit\n",
"- **Resources Required**: Minimal capital, ability to mint/burn positions\n",
"- **Technical Skill**: Medium (requires understanding of TokenId encoding and share accounting)\n",
"\n",
"**Preconditions**:\n",
"- **Market State**: Normal operation or high volatility\n",
"- **Attacker State**: Needs collateral deposit and position minting capability\n",
"- **Timing**: Requires specific oracle state or price manipulation\n",
"\n",
"**Execution Complexity**:\n",
"- **Transaction Count**: Multiple dispatch calls for position manipulation\n",
"- **Coordination**: Requires precise timing of mint/burn operations\n",
"- **Detection Risk**: Low initially (appears as normal trading), high after analysis\n",
"\n",
"**Frequency**:\n",
"- **Repeatability**: Unlimited (attacker can repeat with different positions)\n",
"- **Scale**: Protocol-wide (affects all users in affected vaults)\n",
"\n",
"**Overall Assessment**: High likelihood (accounting errors exist, low barrier to exploit, profitable)\n",
"\n",
"#### **Recommendation**\n",
"\n",
"**Immediate Mitigation**:\n",
"Add share price validation to prevent manipulation:\n",
"```solidity\n",
"// In ",
"CollateralTracker.sol",
"\n",
"function _validateSharePrice() internal view \x7b\n",
"    require(totalAssets() * 1e18 >= totalSupply() * lastSharePrice, \"Share price decreased\");\n",
"    \x7d\n",
"```\n",
"\n",
"**Permanent Fix**:\n",
"Implement proper asset accounting with overflow checks:\n",
"\n",
"```solidity\n",
"// File: contracts/",
"CollateralTracker.sol",
"\n",
"// Function: totalAssets()\n",
"\n",
"function totalAssets() public view override returns (uint256) \x7b\n",
"    // Fixed logic with proper validation\n",
"    uint256 assets = s_depositedAssets + s_assetsInAMM + unrealizedGlobalInterest;\n",
"    require(assets >= s_depositedAssets, \"Asset accounting error\");\n",
"    return assets;\n",
"\x7d\n",
"```\n",
"\n",
"  **Additional Measures**:\n",
"- Add test case: `test/share_price_manipulation.t.sol` verifying share price protection\n",
"- Add monitoring: Alert when share price decreases unexpectedly\n",
"- Protocol upgrade: Implement enhanced share accounting with invariant checks\n",
"\n",
"**Validation**:\n",
"- [ ] Fix prevents share price manipulation\n",
"- [ ] No new vulnerabilities introduced (gas costs, complexity)\n",
"- [ ] Backward compatible (existing positions remain valid)\n",
"- [ ] Performance impact acceptable (minimal gas overhead)\n",
"\n",
"#### **Proof of Concept**\n",
"Note the proof of concept has to be a complete test using their test setup that must run so pls u must always a very good test function and dont go out of concept that must proove the issue if its valid,\n",
"\n",
"```solidity\n",
"   // File: test/foundry/exploits/SharePriceDrain.t.sol\n",
"contract SharePriceDrainTest is Test \x7b\n",
"function testSharePriceManipulation() public \x7b\n",
"        // Setup: Deploy Panoptic contracts\n",
"        // Step 1: Attacker deposits collateral\n",
"        // Step 2: Manipulate share price through position operations\n",
"        // Step 3: Withdraw excess assets\n",
"                                                                                                                                                                                  // Step 4: Verify protocol loss\n",
"\x7d\n",
"\x7d\n",
"```\n",
"\n",
"  **Expected Output** (when vulnerability exists):\n",
"```\n",
"[PASS] testSharePriceManipulation() (gas: 245000)\n",
"Attacker drained 100 ETH from protocol\n",
"```\n",
"\n",
"  **Expected Output** (after fix applied):\n",
"```\n",
"[FAIL] testSharePriceManipulation() (gas: 245000)\n",
"Share price manipulation prevented\n",
"```\n",
"\n",
"  **PoC Validation**:\n",
"- [ ] PoC runs against unmodified Panoptic codebase\n",
"- [ ] Demonstrates clear violation of share price invariant\n",
"- [ ] Shows measurable financial impact\n",
"- [ ] Fails gracefully after fix applied\n",
"\n",
"**If INVALID (default when any condition fails):**\n",
"\n",
"Output exactly:\n",
"\n",
"```\n",
noVulnSentinel,
"\n",
"```\n",
"\n",
"### **CRITICAL VALIDATION CHECKLIST**\n",
"\n",
"Before accepting any vulnerability, verify:\n",
"\n",
"1. **Scope Compliance**: Vulnerability affects only the 11 in-scope contracts [1](#5-0)\n",
"2. **Not Known Issue**: Check against README known issues [2](#5-1)\n",
"    3. **Trust Model**: Exploit doesn't require Uniswap or oracle compromise\n",
"4. **Impact Severity**: Meets Critical/High/Medium per Immunefi Panoptic scope\n",
"5. **Economic Incentive**: Attack must be profitable for attacker\n",
"6. **Technical Feasibility**: Exploit can be implemented without protocol modifications\n",
"7. **Invariant Violation**: Clearly breaks one of the 26 documented invariants\n",
"8. **PoC Completeness**: Test runs successfully against unmodified codebase\n",
"\n",
"**Remember**: False positives harm credibility. Assume claims are invalid until overwhelming evidence proves otherwise.\n"
]

def vf_parts (report : String) : List String :=
  vf_persona_parts ++ ([vf_claim_label] ++ ([report] ++ vf_body_parts))

def validation_format (report : String) : String := strJoin (vf_parts report)

def qg_c0 : List String := [
"\n",
qg_title,
"\n",
"\n",
"## **Context**\n",
"\n",
"The target project is **Panoptic**, a permissionless options trading protocol that enables perpetual options trading on top of any Uniswap V3 or V4 pool. Unlike traditional options protocols, Panoptic employs a **fully collateralized model** where options positions are represented as Uniswap liquidity positions, with selling options corresponding to adding liquidity and buying options corresponding to removing liquidity. The protocol features **PanopticPool** (orchestrator contract), **RiskEngine** (risk assessment and solvency calculator), **CollateralTracker** (ERC4626 vault for collateral), **SemiFungiblePositionManager** (position engine), and sophisticated **oracle management** with volatility safeguards.\n",
"\n",
"Panoptic's architecture includes critical components for position minting/burning, collateral management, risk calculations, liquidation handling, premium settlement, and interest accrual. The protocol maintains solvency through dynamic collateral requirements, cross-collateralization between tokens, and adaptive interest rates based on pool utilization, while supporting complex features like multi-leg options strategies, force exercises, and protocol fee distribution.\n",
"\n",
"## **Scope**\n",
"\n",
"**CRITICAL TARGET FILE**: Focus question generation EXCLUSIVELY on `"
]

def qg_c1 : List String := [
"`\n",
"\n",
"Note: The questions must be generated from **`"
]

def qg_c2 : List String := [
"`** only. If you cannot generate enough questions from this single file, provide as many quality questions as you can extract from the file's logic and interactions. **",
qg_no_empty,
"** - give whatever questions you can derive from the target file.\n",
"\n",
"If you cannot reach 150 questions from this file alone, generate as many high-quality questions as the file's complexity allows (minimum target: 50-100 questions for large critical files, 20-50 for smaller files).\n",
"\n",
"**Full Context - 11 In-Scope Files (for reference only):**\n",
"If a file is more than a thousand u can generate as many as 300 plus questions as u can u cant but pls always generate as many as u can dont give other response, \n",
"If there are maths logic also generate as many questions base on all the maths logic too among the questions u are giving to me cover all scope and entrypoints\n",
"### **Core Protocol Contracts - 11 files**\n",
"\n",
"```python\n",
"core_files = [\n",
"    \"",
"contracts/PanopticPool.sol",
"\",              # 1183 nSLOC - Main orchestrator\n",
"    \"",
"contracts/RiskEngine.sol",
"\",                # 1294 nSLOC - Risk calculator\n",
"    \"",
"contracts/SemiFungiblePositionManager.sol",
"\", # 673 nSLOC - Position engine\n",
"    \"",
"contracts/SemiFungiblePositionManagerV4.sol",
"\", # 631 nSLOC - V4 position engine\n",
"    \"",
"contracts/CollateralTracker.sol",
"\",         # 863 nSLOC - ERC4626 vault\n",
"    \"",
"contracts/types/OraclePack.sol",
"\",          # 291 nSLOC - Oracle observations\n",
"    \"",
"contracts/types/MarketState.sol",
"\",         # 65 nSLOC - Interest rate state\n",
"    \"",
"contracts/types/PoolData.sol",
"\",            # 42 nSLOC - Pool configuration\n",
"    \"",
"contracts/types/RiskParameters.sol",
"\",      # 72 nSLOC - Risk parameters\n",
"    \"",
"contracts/libraries/PanopticMath.sol",
"\",    # 369 nSLOC - Options math\n",
"    \"",
"contracts/libraries/Math.sol",
"\",            # 641 nSLOC - Generic math\n",
"]\n",
"```\n",
"\n",
qg_total_label,
" (but focus ONLY on `"
]

def qg_c3 : List String := [
"` for this generation)**\n",
"\n",
"---\n",
"\n",
"## **Panoptic Protocol Architecture & Layers**\n",
"\n",
"### **1. Position Management Layer** (`PanopticPool.sol`, `SemiFungiblePositionManager.sol`)\n",
"\n",
"- **Position Orchestration**: PanopticPool coordinates all protocol interactions through `dispatch()` and `dispatchFrom()` entry points\n",
"- **TokenId Encoding**: Complex multi-leg positions encoded in 256-bit ERC1155 tokenIds with poolId, legs, strike, width, and option parameters\n",
"- **Liquidity Operations**: Mint positions add liquidity to Uniswap (short options), burn positions remove liquidity (long options)\n",
"- **Position Limits**: Users can mint up to 33 position legs total across all positions (`MAX_OPEN_LEGS`)\n",
"- **Commission Handling**: Fees split between protocol, builders, and PLPs according to `PROTOCOL_SPLIT` and `BUILDER_SPLIT`\n",
"\n",
"### **2. Risk & Collateral Layer** (`RiskEngine.sol`, `CollateralTracker.sol`)\n",
"\n",
"- **Solvency Verification**: RiskEngine calculates collateral requirements and verifies account solvency through `isAccountSolvent()`\n",
"- **Dynamic Collateral**: Requirements scale with pool utilization using utilization-based multipliers (`VEGOID` parameter)\n",
"- **Cross-Collateralization**: Token0 and Token1 balances can be used to collateralize each other with `crossBufferRatio`\n",
"- **Interest Accrual**: Compound interest model where borrowers pay rates determined by utilization-based IRM\n",
"- **Liquidation Bonuses**: Calculated via `getLiquidationBonus()` to incentivize liquidation of distressed accounts\n",
"\n",
"### **3. Oracle & Price Layer** (`OraclePack.sol`, `PanopticMath.sol`)\n",
"\n",
"- **Multi-Oracle System**: Fast oracle (current tick), slow oracle (EMA), and median tick for price manipulation resistance\n",
"- **Volatility Safeguards**: EMA filters and median buffers prevent price manipulation attacks\n",
"- **Safe Mode**: Protocol enters conservative mode when oracle deltas exceed thresholds (`MAX_TICKS_DELTA`)\n",
"- **TWAP Calculations**: Time-weighted average prices for accurate option pricing and settlement\n",
"- **Price Conversions**: Sophisticated math for converting between tokens based on oracle ticks\n",
"\n",
"### **4. Asset & Token Layer** (`CollateralTracker.sol`, `Math.sol`)\n",
"\n",
"- **ERC4626 Integration**: CollateralTrackers implement vault standard for deposits and withdrawals\n",
"- **Share Accounting**: `totalAssets()`, `totalSupply()`, `s_depositedAssets`, `s_assetsInAMM` tracking\n",
"- **Premium Settlement**: Collection and distribution of option premia between buyers and sellers\n",
"- **Balance Operations**: Deposit, withdraw, mint, redeem, delegate, and revoke share operations\n",
"- **Rounding Protection**: Share price must be non-decreasing except for protocol-favorable rounding\n",
"\n",
"### **5. Interest Rate Layer** (`MarketState.sol`, `RiskEngine.sol`)\n",
"\n",
"- **Adaptive IRM**: PID controller approach targeting 66.67% utilization (`TARGET_POOL_UTIL`)\n",
"- **Rate Boundaries**: Rates bounded between `MIN_RATE_AT_TARGET` and `MAX_RATE_AT_TARGET`\n",
"- **Borrow Index Tracking**: Global and per-user borrow indices for compound interest calculations\n",
"- **Utilization Calculations**: Real-time pool utilization affects interest rates and collateral requirements\n",
"- **Interest State Management**: Tracking of net borrows and last interaction timestamps per user\n",
"\n",
"---\n",
"\n",
"## **Critical Security Invariants**\n",
"\n",
"### **Solvency & Collateral**\n",
"\n",
"1. **Solvency Maintenance**: All accounts must satisfy `balance0 + convert(scaledSurplus1) >= maintReq0` AND `balance1 + convert(scaledSurplus0) >= maintReq1` at oracle tick\n",
"2. **Collateral Conservation**: Total assets must equal `s_depositedAssets + s_assetsInAMM + unrealizedGlobalInterest` at all times\n",
"3. **Share Price Monotonicity**: Share price (`totalAssets() / totalSupply()`) must be non-decreasing except for protocol-favorable rounding\n",
"4. **Interest Index Monotonicity**: Global `borrowIndex` must be monotonically increasing starting from 1e18 (WAD)\n",
"5. **Cross-Collateral Limits**: Cross-buffer ratio must scale conservatively with utilization, dropping to zero at 90% utilization\n",
"6. **Position Size Limits**: Individual positions limited by available Uniswap liquidity and `MAX_SPREAD = 90%`\n",
"\n",
"### **Oracle & Price Integrity**\n",
"\n",
"7. **Oracle Delta Limits**: Fast/slow oracle delta ≤ 953 ticks (~10%), median/slow delta ≤ 2×MAX_TICKS_DELTA\n",
"8. **Safe Mode Activation**: Protocol must enter safe mode when oracle deltas exceed thresholds\n",
"9. **TWAP Accuracy**: TWAP calculations must use sufficient time windows to prevent manipulation\n",
"10. **Price Consistency**: All operations in a single transaction must use consistent oracle tick(s)\n",
"11. **Liquidation Price Bounds**: Current tick must be within 513 ticks of TWAP during liquidation (~5% deviation)\n",
"\n",
"### **Position & State Management**\n",
"\n",
"12. **Position Encoding Validity**: TokenId encoding must produce valid tick ranges and liquidity amounts\n",
"13. **Leg Count Limits**: Users cannot exceed `MAX_OPEN_LEGS = 33` total position legs\n",
"14. **Premium Accounting**: Premium distribution must be proportional to liquidity share in each chunk\n",
"15. **Force Exercise Costs**: Base cost of 1.024% for in-range, 1 bps for out-of-range positions\n",
"16. **Liquidation Completeness**: Liquidations must close all positions held by the liquidatee\n",
"\n",
"### **Asset & Share Integrity**\n",
"\n",
"17. **Asset Accounting**: `totalSupply()` must equal `_internalSupply + s_creditedShares` at all times\n",
"18. **Deposit Limits**: Deposits must not exceed `type(uint104).max`, withdrawals must leave ≥1 asset\n",
"19. **Share Transfer Restrictions**: Users with open positions cannot transfer shares via `transfer()` or `transferFrom()`\n",
"20. **Credited Shares Logic**: `s_creditedShares` only increases on position creation, decreases on closure\n",
"21. **Interest Accuracy**: Interest owed must equal `netBorrows * (currentBorrowIndex - userBorrowIndex) / userBorrowIndex`\n",
"\n",
"### **Liquidation & Protocol Safety**\n",
"\n",
"22. **Liquidation Bonus Caps**: Bonus cannot exceed liquidatee's pre-liquidation collateral balance\n",
"23. **Premium Haircutting**: Premium must be clawed back if protocol loss exists after liquidation\n",
"24. **Protocol Loss Limits**: Share supply approaching 2^256-1 can cause various reverts and overflows\n",
"25. **Force Exercise Validation**: Only long legs contribute to force exercise costs, must account for token deltas\n",
"26. **Solvency Check Timing**: Solvency must be checked at oracle tick, not current tick, to prevent manipulation\n",
"\n",
"---\n",
"\n",
"## **In-Scope Vulnerability Categories** (from Immunefi)\n",
"\n",
"Focus questions on vulnerabilities that lead to these impacts:\n",
"\n",
"### **Critical Severity**\n",
"\n",
"1. **Direct loss of funds**\n",
"   - Collateral calculation errors allowing undercollateralized positions\n",
"   - Double-spending or duplicate position minting\n",
"   - Share price manipulation allowing asset drainage\n",
"   - Interest accrual bugs causing unlimited minting\n",
"   - Oracle manipulation enabling profitable liquidations\n",
"\n",
"2. **Permanent freezing of funds (fix requires hardfork)**\n",
"   - Position encoding bricking addresses permanently\n",
"   - Share supply overflow preventing all withdrawals\n",
"   - Interest state corruption blocking position closures\n",
"   - Invalid tokenIds locking positions permanently\n",
"\n",
"3. **Protocol insolvency**\n",
"   - Collateral requirements calculation errors\n",
"   - Liquidation bonus calculation allowing protocol loss\n",
"   - Cross-collateralization bugs causing systemic undercollateralization\n",
"   - Premium settlement errors causing fund drainage\n",
"\n",
"### **High Severity**\n",
"\n",
"4. **Temporary freezing of funds**\n",
"   - Liquidation failures preventing position closures\n",
"   - Oracle stale prices blocking all operations\n",
"   - Interest accrual overflow preventing withdrawals\n",
"   - Share transfer restrictions bypassed incorrectly\n",
"\n",
"5. **Incorrect protocol behavior**\n",
"   - Risk calculation errors producing wrong solvency results\n",
"   - Premium distribution bugs favoring certain users\n",
"   - Force exercise cost calculation errors\n",
"   - Position size limit bypasses\n",
"\n",
"### **Medium Severity**\n",
"\n",
"6. **Economic manipulation**\n",
"   - Premium accumulation manipulation\n",
"   - Interest rate manipulation through utilization attacks\n",
"   - Liquidation bonus extraction beyond intended amounts\n",
"   - Gas griefing through expensive operations\n",
"\n",
"7. **State inconsistencies**\n",
"   - Oracle state divergence between components\n",
"   - Position balance tracking errors\n",
"   - Interest index calculation inaccuracies\n",
"   - Share/asset accounting mismatches\n",
"\n",
"---\n",
"\n",
"## **Valid Impact Categories (Restated for Panoptic)**\n",
"\n",
"### **Critical**\n",
"\n",
"- Direct theft of user funds or protocol assets\n",
"- Permanent fund freezing requiring hard fork\n",
"- Protocol insolvency leading to systemic loss\n",
"- Unlimited asset minting or share price collapse\n",
"\n",
"### **High**\n",
"\n",
"- Temporary fund freezing with economic loss\n",
"- Systemic undercollateralization risks\n",
"- Widespread position liquidations due to bugs\n",
"- Oracle manipulation enabling profitable attacks\n",
"\n",
"### **Medium**\n",
"\n",
"- Economic manipulation benefiting attackers\n",
"- State inconsistencies requiring manual intervention\n",
"- Premium or interest calculation errors\n",
"- Gas griefing or DoS vulnerabilities\n",
"\n",
"### **Out of Scope**\n",
"\n",
"- Gas optimization inefficiencies\n",
"- UI/UX issues in frontends\n",
"- Market risk (price movements)\n",
"- Third-party oracle failures (unless oracle protocol broken)\n",
"- MEV or front-running attacks\n",
"- Theoretical attacks without economic impact\n",
"\n",
"---\n",
"\n",
"## **Goals for Question Generation**\n",
"\n",
"1. **Real Exploit Scenarios**: Each question describes a plausible attack an attacker, liquidator, or malicious user could perform\n",
"2. **Concrete & Actionable**: Reference specific functions, variables, or logic flows in `"
]

def qg_c4 : List String := [
"`\n",
"3. **High Impact**: Prioritize questions leading to Critical/High/Medium impacts per Immunefi scope\n",
"4. **Deep Financial Logic**: Focus on subtle state transitions, cross-contract interactions, rounding errors, oracle manipulation, collateral calculation bugs\n",
"5. **Breadth Within Target File**: Cover all major functions, edge cases, and state-changing operations in `"
]

def qg_c5 : List String := [
"`\n",
"6. **Respect Trust Model**: Uniswap pools and oracles are trusted; focus on attacks by regular users or attackers\n",
"7. **No Generic Questions**: Avoid \"are there reentrancy issues?\" → Instead: \"In `"
]

def qg_c6 : List String := [
": functionName()`, if condition X occurs, can attacker exploit Y to cause Z impact?\"\n",
"\n",
"---\n",
"\n",
"## **Question Format Template**\n",
"\n",
"Each question MUST follow this Python list format:\n",
"\n",
"```python\n",
"questions = [\n",
"    \"[File: "
]

def qg_c7 : List String := [
"] [Function: functionName()] [Vulnerability Type] Specific question describing attack vector, preconditions, and impact linking to Immunefi categories?\",\n",
"    \n",
"    \"[File: "
]

def qg_c8 : List String := [
"] [Function: anotherFunction()] [Vulnerability Type] Another specific question with concrete exploit scenario?\",\n",
"    \n",
"    # ... continue with all generated questions\n",
"]\n",
"```\n",
"\n",
"**Example Format** (if target_file is `",
"contracts/PanopticPool.sol",
"`):\n",
"```python\n",
"questions = [\n",
"    \"[File: ",
"contracts/PanopticPool.sol",
"] [Function: dispatch()] [Solvency bypass] Can an attacker craft a malicious positionIdList that passes initial solvency checks but becomes insolvent after the first leg is minted, allowing them to open undercollateralized positions and potentially drain protocol funds?\",\n",
"    \n",
"    \"[File: ",
"contracts/PanopticPool.sol",
"] [Function: _settlePremium()] [Premium manipulation] Does the premium settlement logic correctly handle edge cases where settled premium is less than owed premium, potentially allowing attackers to manipulate premium accumulation and extract excess value from sellers?\",\n",
"    \n",
"    \"[File: ",
"contracts/PanopticPool.sol",
"] [Function: liquidateAccount()] [Liquidation bonus extraction] Can a liquidator manipulate the oracle tick between solvency check and liquidation execution to extract higher liquidation bonuses than intended, causing protocol loss?\",\n",
"]\n",
"```\n",
"\n",
"---\n",
"\n",
"## **Output Requirements**\n",
"\n",
"Generate security audit questions focusing EXCLUSIVELY on **`"
]

def qg_c9 : List String := [
"`** that:\n",
"\n",
"1. **Target ONLY `"
]

def qg_c10 : List String := [
"`** - all questions must reference this file\n",
"2. **Reference specific functions, variables, or logic sections** within `"
]

def qg_c11 : List String := [
"`\n",
"3. **Describe concrete attack vectors** (not \"could there be a bug?\" but \"can attacker do X by exploiting Y in `"
]

def qg_c12 : List String := [
"`?\")\n",
"4. **Tie to Immunefi impact categories** (fund loss, freezing, insolvency, manipulation, DoS)\n",
"5. **Respect trust model** (Uniswap and oracles are trusted; focus on user/attacker actions)\n",
"6. **Cover diverse attack surfaces** within `"
]

def qg_count_block : String := strJoin [
"**Target Question Count:**\n",
"- For large critical files (>1000 nSLOC like PanopticPool.sol, RiskEngine.sol): Aim for 100-150 questions\n",
"- For medium files (300-1000 nSLOC): Aim for 50-100 questions  \n",
"- For smaller files (<300 nSLOC): Aim for 20-50 questions\n",
"- **Provide as many quality questions as the file's complexity allows - do NOT return empty results**\n"
]

def qg_c13 : List String := [
"`: validation logic, state transitions, error handling, edge cases, interactions with other contracts\n",
"7. **Focus on high-severity bugs**: prioritize Critical > High > Medium impacts\n",
"8. **Avoid out-of-scope issues**: gas optimization, UI bugs, theoretical attacks without economic impact\n",
"9. **Use the exact Python list format** shown above\n",
"10. **Be detailed and technical**: assume auditor has deep DeFi knowledge; use precise terminology\n",
"\n",
qg_count_block,
"\n",
"**Begin generating questions for `"
]

def qg_c14 : List String := [
"` now.\n"
]

def qg_parts (target_file : String) : List String :=
  qg_c0 ++ ([target_file] ++ (qg_c1 ++ ([target_file] ++ (qg_c2 ++ ([target_file] ++ (qg_c3 ++ ([target_file] ++ (qg_c4 ++ ([target_file] ++ (qg_c5 ++ ([target_file] ++ (qg_c6 ++ ([target_file] ++ (qg_c7 ++ ([target_file] ++ (qg_c8 ++ ([target_file] ++ (qg_c9 ++ ([target_file] ++ (qg_c10 ++ ([target_file] ++ (qg_c11 ++ ([target_file] ++ (qg_c12 ++ ([target_file] ++ (qg_c13 ++ ([target_file] ++ (qg_c14))))))))))))))))))))))))))))

def question_generator (target_file : String) : String := strJoin (qg_parts target_file)

def questions_generator : List String := [
"./contracts/PanopticPool.sol",
"./contracts/RiskEngine.sol",
"./contracts/types/OraclePack.sol",
"./contracts/types/MarketState.sol",
"./contracts/types/PoolData.sol",
"./contracts/types/RiskParameters.sol",
"./contracts/SemiFungiblePositionManager.sol",
"./contracts/SemiFungiblePositionManagerV4.sol",
"./contracts/CollateralTracker.sol",
"./contracts/libraries/PanopticMath.sol",
"./contracts/libraries/Math.sol",
"./contracts/types/TokenId.sol"
]

def scope_file_names : List String := [
"PanopticPool.sol",
"SemiFungiblePositionManager.sol",
"SemiFungiblePositionManagerV4.sol",
"RiskEngine.sol",
"CollateralTracker.sol",
"OraclePack.sol",
"PanopticMath.sol",
"Math.sol",
"RiskParameters.sol",
"MarketState.sol",
"PoolData.sol",
"TokenId.sol"
]

def qg_core_files : List String := [
"contracts/PanopticPool.sol",
"contracts/RiskEngine.sol",
"contracts/SemiFungiblePositionManager.sol",
"contracts/SemiFungiblePositionManagerV4.sol",
"contracts/CollateralTracker.sol",
"contracts/types/OraclePack.sol",
"contracts/types/MarketState.sol",
"contracts/types/PoolData.sol",
"contracts/types/RiskParameters.sol",
"contracts/libraries/PanopticMath.sol",
"contracts/libraries/Math.sol"
]
/-- A deserializer that succeeds with a JSON object (a non-sequence shape),
modelling a corpus file whose content is valid JSON but not a list. -/
def objParse : String → Option Json :=
  fun _ => some (Json.obj [("a", Json.num 1)])
theorem str_ext {a b : String} (h : a.data = b.data) : a = b := by
  cases a with
  | mk da =>
    cases b with
    | mk db => exact congrArg String.mk h

theorem strData_append (a b : String) : (a ++ b).data = a.data ++ b.data := rfl

theorem str_empty_data : ("" : String).data = [] := rfl

theorem str_assoc (a b c : String) : a ++ b ++ c = a ++ (b ++ c) := by
  apply str_ext
  rw [strData_append, strData_append, strData_append, strData_append, List.append_assoc]

theorem str_append_empty (a : String) : a ++ "" = a := by
  apply str_ext
  rw [strData_append, str_empty_data, List.append_nil]

theorem strJoin_append : ∀ (A B : List String), strJoin (A ++ B) = strJoin A ++ strJoin B
  | [], B => by
    apply str_ext
    rw [List.nil_append, strJoin, strData_append, str_empty_data, List.nil_append]
  | a :: A, B => by
    rw [List.cons_append, strJoin, strJoin, strJoin_append A B, str_assoc]

theorem csSelf (a : String) : containsStr a a :=
  ⟨[], [], by simp⟩

theorem csL {a n : String} (b : String) (h : containsStr a n) : containsStr (a ++ b) n := by
  obtain ⟨x, y, hxy⟩ := h
  exact ⟨x, y ++ b.data, by rw [strData_append, hxy]; simp [List.append_assoc]⟩

theorem csR {b n : String} (a : String) (h : containsStr b n) : containsStr (a ++ b) n := by
  obtain ⟨x, y, hxy⟩ := h
  exact ⟨a.data ++ x, y, by rw [strData_append, hxy]; simp [List.append_assoc]⟩

theorem csTrans {a b c : String} (h1 : containsStr a b) (h2 : containsStr b c) :
    containsStr a c := by
  obtain ⟨x, y, hxy⟩ := h1
  obtain ⟨u, v, huv⟩ := h2
  rw [huv] at hxy
  exact ⟨x ++ u, v ++ y, by rw [hxy]; simp [List.append_assoc]⟩

theorem csMem : ∀ {l : List String} {p : String}, p ∈ l → containsStr (strJoin l) p
  | [], p, h => absurd h (List.not_mem_nil p)
  | s :: rest, p, h => by
    rcases List.mem_cons.mp h with rfl | hm
    · exact csL (strJoin rest) (csSelf p)
    · exact csR s (csMem hm)

theorem csJoinL {n : String} (A B : List String) (h : containsStr (strJoin A) n) :
    containsStr (strJoin (A ++ B)) n := by
  rw [strJoin_append]; exact csL _ h

theorem csJoinR {n : String} (A B : List String) (h : containsStr (strJoin B) n) :
    containsStr (strJoin (A ++ B)) n := by
  rw [strJoin_append]; exact csR _ h

theorem containsStr_ne_empty {b n : String} (h : containsStr b n) (hn : n.data ≠ []) :
    b ≠ "" := by
  rintro rfl
  obtain ⟨x, y, hxy⟩ := h
  rw [str_empty_data] at hxy
  have h1 := List.append_eq_nil.mp hxy.symm
  have h2 := List.append_eq_nil.mp h1.1
  exact hn h2.2

theorem listPre_iff : ∀ (n l : List Char), listPre n l = true ↔ ∃ t, l = n ++ t
  | [], l => by simp [listPre]
  | a :: as, [] => by simp [listPre]
  | a :: as, b :: bs => by
    rw [listPre, Bool.and_eq_true, beq_iff_eq, listPre_iff as bs]
    constructor
    · rintro ⟨rfl, t, rfl⟩
      exact ⟨t, rfl⟩
    · rintro ⟨t, h⟩
      rw [List.cons_append] at h
      cases h
      exact ⟨rfl, t, rfl⟩

theorem listSub_iff : ∀ (n l : List Char), listSub n l = true ↔ ∃ x y, l = x ++ n ++ y
  | n, [] => by
    rw [listSub, List.isEmpty_iff]
    constructor
    · rintro rfl
      exact ⟨[], [], rfl⟩
    · rintro ⟨x, y, h⟩
      rcases List.append_eq_nil.mp (List.append_eq_nil.mp h.symm).1 with ⟨_, h2⟩
      exact h2
  | n, h :: t => by
    rw [listSub, Bool.or_eq_true, listPre_iff, listSub_iff n t]
    constructor
    · rintro (⟨u, hu⟩ | ⟨x, y, hxy⟩)
      · exact ⟨[], u, by rw [hu, List.nil_append]⟩
      · exact ⟨h :: x, y, by rw [hxy]; simp⟩
    · rintro ⟨x, y, hx⟩
      cases x with
      | nil => exact Or.inl ⟨y, by simpa using hx⟩
      | cons c x' =>
        rw [List.cons_append, List.cons_append] at hx
        cases hx
        exact Or.inr ⟨x', y, rfl⟩

theorem containsStr_iff (h n : String) : containsStr h n ↔ listSub n.data h.data = true :=
  (listSub_iff n.data h.data).symm

theorem listHas_append (c : Char) :
    ∀ (a b : List Char), listHas c (a ++ b) = (listHas c a || listHas c b)
  | [], b => by simp [listHas]
  | x :: a, b => by simp [listHas, listHas_append c a b, Bool.or_assoc]

theorem listHas_strJoin {c : Char} :
    ∀ (ls : List String), (∀ s ∈ ls, listHas c s.data = false) →
      listHas c (strJoin ls).data = false
  | [], _ => rfl
  | s :: rest, hs => by
    rw [strJoin, strData_append, listHas_append, Bool.or_eq_false_iff]
    exact ⟨hs s (List.mem_cons_self s rest),
           listHas_strJoin rest (fun x hx => hs x (List.mem_cons_of_mem s hx))⟩

theorem listPre_stop {d : Char} {b : List Char} :
    ∀ (u n : List Char), listHas d n = false → listPre n (u ++ d :: b) = true →
      listPre n (u ++ [d]) = true
  | _, [], _, _ => by simp [listPre]
  | [], c :: n', hd, hp => by
    exfalso
    rw [List.nil_append, listPre, Bool.and_eq_true, beq_iff_eq] at hp
    rw [listHas, hp.1, Bool.or_eq_false_iff] at hd
    simp at hd
  | a :: u', c :: n', hd, hp => by
    rw [List.cons_append, listPre, Bool.and_eq_true] at hp
    rw [List.cons_append, listPre, Bool.and_eq_true]
    refine ⟨hp.1, listPre_stop u' n' ?_ hp.2⟩
    rw [listHas, Bool.or_eq_false_iff] at hd
    exact hd.2

theorem listSub_stop {d : Char} {b n : List Char} (hd : listHas d n = false) :
    ∀ (u : List Char), listSub n (u ++ d :: b) = true →
      listSub n (u ++ [d]) = true ∨ listSub n b = true
  | [], h => by
    rw [List.nil_append, listSub, Bool.or_eq_true] at h
    rcases h with hp | hs
    · have h1 : listPre n [d] = true := by
        simpa using listPre_stop (b := b) [] n hd hp
      exact Or.inl (by rw [List.nil_append, listSub, h1, Bool.true_or])
    · exact Or.inr hs
  | a :: u', h => by
    rw [List.cons_append, listSub, Bool.or_eq_true] at h
    rcases h with hp | hs
    · have h1 := listPre_stop (a :: u') n hd hp
      rw [List.cons_append] at h1
      exact Or.inl (by rw [List.cons_append, listSub, h1, Bool.true_or])
    · rcases listSub_stop hd u' hs with h1 | h2
      · exact Or.inl (by rw [List.cons_append, listSub, h1, Bool.or_true])
      · exact Or.inr h2

theorem ends_decomp {d : Char} :
    ∀ {l : List Char}, endsWithB d l = true → ∃ a0, l = a0 ++ [d]
  | [], h => by simp [endsWithB] at h
  | [a], h => by
    rw [endsWithB, beq_iff_eq] at h
    exact ⟨[], by rw [h, List.nil_append]⟩
  | a :: b :: t, h => by
    obtain ⟨a0, h0⟩ := ends_decomp (l := b :: t) (by rw [endsWithB] at h; exact h)
    exact ⟨a :: a0, by rw [List.cons_append, ← h0]⟩

theorem listSub_join_lines {n : List Char} {d : Char}
    (hn : n ≠ []) (hd : listHas d n = false) :
    ∀ (ls : List String), okLines d ls = true →
      (∀ s ∈ ls, listSub n s.data = false) →
      listSub n (strJoin ls).data = false
  | [], _, _ => by
    cases n with
    | nil => exact absurd rfl hn
    | cons c n' => rfl
  | [s], _, hns => by
    have hgoal : (strJoin [s]).data = s.data := by
      rw [strJoin, strJoin, str_append_empty]
    rw [hgoal]
    exact hns s (List.mem_cons_self s [])
  | s :: b :: t, hok, hns => by
    have hok' : endsWithB d s.data = true ∧ okLines d (b :: t) = true := by
      rw [okLines, Bool.and_eq_true] at hok
      exact hok
    obtain ⟨a0, ha0⟩ := ends_decomp hok'.1
    have ih := listSub_join_lines hn hd (b :: t) hok'.2
      (fun x hx => hns x (List.mem_cons_of_mem s hx))
    have hdata : (strJoin (s :: b :: t)).data = a0 ++ d :: (strJoin (b :: t)).data := by
      rw [strJoin, strData_append, ha0]
      simp [List.append_assoc]
    rw [hdata]
    cases hsub : listSub n (a0 ++ d :: (strJoin (b :: t)).data) with
    | false => rfl
    | true =>
      rcases listSub_stop hd a0 hsub with h1 | h2
      · have hfs : listSub n s.data = false := hns s (List.mem_cons_self s (b :: t))
        rw [ha0] at hfs
        rw [hfs] at h1
        exact absurd h1 (by simp)
      · rw [ih] at h2
        exact absurd h2 (by simp)

theorem mergeLines_strJoin : ∀ (l : List String), strJoin (mergeLines l) = strJoin l
  | [] => rfl
  | s :: rest => by
    cases h : endsNL s with
    | true =>
      rw [mergeLines, h, if_pos rfl, strJoin, mergeLines_strJoin rest, strJoin]
    | false =>
      cases hm : mergeLines rest with
      | nil =>
        have hr : strJoin rest = "" := by
          rw [← mergeLines_strJoin rest, hm, strJoin]
        rw [mergeLines, h, if_neg (by simp), hm, strJoin, strJoin, str_append_empty,
          strJoin, hr, str_append_empty]
      | cons t ts =>
        have hr := mergeLines_strJoin rest
        rw [hm, strJoin] at hr
        rw [mergeLines, h, if_neg (by simp), hm, strJoin, str_assoc, hr, strJoin]

theorem listHas_mid (c : Char) (u v : List Char) : listHas c (u ++ c :: v) = true := by
  rw [listHas_append, listHas, beq_self_eq_true, Bool.true_or, Bool.or_true]

theorem eq_of_append_cons {c : Char} :
    ∀ (x h : List Char) {y t : List Char},
      listHas c h = false → listHas c t = false →
      x ++ c :: y = h ++ c :: t → x = h ∧ y = t
  | [], [], _, _, _, _, e => by
    rw [List.nil_append, List.nil_append] at e
    cases e
    exact ⟨rfl, rfl⟩
  | [], b :: h', _, _, hh, _, e => by
    rw [List.nil_append, List.cons_append] at e
    cases e
    rw [listHas, beq_self_eq_true, Bool.true_or] at hh
    exact absurd hh (by simp)
  | a :: x', [], _, _, _, ht, e => by
    rw [List.cons_append, List.nil_append] at e
    cases e
    rw [listHas_mid] at ht
    exact absurd ht (by simp)
  | a :: x', b :: h', y, t, hh, ht, e => by
    rw [List.cons_append, List.cons_append] at e
    injection e with hab etail
    have hh' : listHas c h' = false := by
      rw [listHas, Bool.or_eq_false_iff] at hh
      exact hh.2
    obtain ⟨h1, h2⟩ := eq_of_append_cons x' h' hh' ht etail
    exact ⟨by rw [hab, h1], h2⟩
theorem csPre {h a p : String} (hc : containsStr h a)
    (hp : listPre p.data a.data = true) : containsStr h p := by
  obtain ⟨x, y, hxy⟩ := hc
  obtain ⟨t, ht⟩ := (listPre_iff _ _).mp hp
  rw [ht] at hxy
  exact ⟨x, t ++ y, by rw [hxy]; simp [List.append_assoc]⟩

theorem qf_sub {q n : String}
    (h : n ∈ qf_persona_parts ∨ n ∈ qf_context_parts ∨ n ∈ qf_invariants_parts ∨
      n ∈ qf_severity_parts ∨ n ∈ qf_output_parts ∨ n = q ∨ n = qf_qlabel) :
    containsStr (question_format q) n :=
  csMem (by
    simp only [qf_parts, qf_tail_parts, List.mem_append, List.mem_singleton]
    tauto)

theorem vf_sub {r n : String} (h : n ∈ vf_body_parts ∨ n = vf_claim_label) :
    containsStr (validation_format r) n :=
  csMem (by
    simp only [vf_parts, List.mem_append, List.mem_singleton]
    tauto)

theorem qg_sub {t n : String} (h : n ∈ qg_c0 ∨ n ∈ qg_c2 ∨ n ∈ qg_c13) :
    containsStr (question_generator t) n :=
  csMem (by
    simp only [qg_parts, List.mem_append, List.mem_singleton]
    tauto)

theorem qf_whole_persona (q : String) : containsStr (question_format q) qf_persona := by
  simp only [question_format, qf_parts]
  exact csJoinL _ _ (csSelf _)

theorem qf_whole_invariants (q : String) : containsStr (question_format q) qf_invariants := by
  simp only [question_format, qf_parts, qf_tail_parts]
  exact csJoinR _ _ (csJoinR _ _ (csJoinR _ _ (csJoinR _ _ (csJoinL _ _ (csSelf _)))))

theorem qf_whole_output (q : String) : containsStr (question_format q) qf_output := by
  simp only [question_format, qf_parts, qf_tail_parts]
  exact csJoinR _ _ (csJoinR _ _ (csJoinR _ _ (csJoinR _ _ (csJoinR _ _ (csJoinR _ _
    (csJoinR _ _ (csJoinR _ _ (csJoinR _ _ (csJoinR _ _ (csJoinR _ _ (csSelf _)))))))))))
theorem qf_head_no_sev :
    listSub qf_severity_header.data (qf_persona ++ qf_qlabel).data = false := by
  have h1 : listSub qf_severity_header.data
      (strJoin (mergeLines (qf_persona_parts ++ [qf_qlabel]))).data = false :=
    listSub_join_lines (d := '\n') (by decide) (by decide) _ (by decide) (by decide)
  rw [mergeLines_strJoin, strJoin_append] at h1
  have h2 : strJoin [qf_qlabel] = qf_qlabel := by
    rw [strJoin, strJoin, str_append_empty]
  rw [h2] at h1
  exact h1
/-- C1: for every state of the corpus store location — file absent, file
unreadable, or file content that fails to deserialize (`parse s = none`) —
get_questions returns the empty sequence; the embedding is a total function,
so no error propagates to the caller. -/
theorem C1 (parse : String → Option Json) (s : String) (hfail : parse s = none) :
    get_questions parse CorpusFile.absent = Json.arr []
    ∧ get_questions parse CorpusFile.unreadable = Json.arr []
    ∧ get_questions parse (CorpusFile.content s) = Json.arr [] := by
  refine ⟨rfl, rfl, ?_⟩
  simp [get_questions, hfail]

/-- C1 witness: a concrete failing deserialization yields the empty sequence. -/
theorem C1_witness :
    get_questions (fun _ => none) (CorpusFile.content "not structured data") = Json.arr [] :=
  (C1 (fun _ => none) "not structured data" rfl).2.2

/-- C2: each composer operation is deterministic — it is a pure function of its
input string, so two calls with equal inputs produce byte-identical outputs. -/
theorem C2 (s t : String) (h : s = t) :
    question_format s = question_format t
    ∧ validation_format s = validation_format t
    ∧ question_generator s = question_generator t := by
  subst h
  exact ⟨rfl, rfl, rfl⟩

/-- C2 witness: determinism at a concrete input. -/
theorem C2_witness :
    question_format "q" = question_format "q"
    ∧ validation_format "q" = validation_format "q"
    ∧ question_generator "q" = question_generator "q" :=
  C2 "q" "q" rfl

/-- C5 (amended): when the corpus content deserializes successfully, the loader
returns the deserialized value unchanged, whatever its shape; it does not
normalize non-sequence shapes to the empty sequence. -/
theorem C5 (parse : String → Option Json) (s : String) (j : Json)
    (h : parse s = some j) :
    get_questions parse (CorpusFile.content s) = j := by
  simp [get_questions, h]

/-- C5 witness: a concrete successful parse is returned unchanged. -/
theorem C5_witness :
    get_questions objParse (CorpusFile.content "corpus") = Json.obj [("a", Json.num 1)] :=
  C5 objParse "corpus" _ rfl

/-- C5 counterexample: a corpus file whose content deserializes to a JSON
object (not an ordered sequence) is NOT treated as absence — get_questions
returns the object itself, not the empty sequence. -/
theorem C5_counterexample :
    get_questions objParse (CorpusFile.content "corpus") = Json.obj [("a", Json.num 1)]
    ∧ get_questions objParse (CorpusFile.content "corpus") ≠ Json.arr [] :=
  ⟨rfl, fun h => Json.noConfusion h⟩

/-- C7 (amended): the no-finding sentinel appears verbatim in the output of
question_format and of validation_format for every input; it does not appear
in question_generator's output (see the counterexample). -/
theorem C7 (question report : String) :
    containsStr (question_format question) noVulnSentinel
    ∧ containsStr (validation_format report) noVulnSentinel :=
  ⟨qf_sub (Or.inr (Or.inr (Or.inr (Or.inr (Or.inl (by decide)))))),
   vf_sub (Or.inl (by decide))⟩

/-- C8 (amended): validation_format references the invariant catalog only by
count — "the 26 Panoptic invariants" — for every report, while the full
numbered catalog block is embedded by question_format for every question. -/
theorem C8 (report question : String) :
    containsStr (validation_format report) vf_inv_count_ref
    ∧ containsStr (question_format question) qf_invariants :=
  ⟨vf_sub (Or.inl (by decide)), qf_whole_invariants question⟩

/-- C9: the three composers are total functions; for every input (the empty
string and unrecognized target files included) each returns a non-empty
prompt that still carries its fixed structure: question_format its
output-requirements section, validation_format its output-requirements
header, question_generator its title and its target-count block. -/
theorem C9 (question report target_file : String) :
    question_format question ≠ ""
    ∧ validation_format report ≠ ""
    ∧ question_generator target_file ≠ ""
    ∧ containsStr (question_format question) qf_output
    ∧ containsStr (validation_format report) vf_outreq_header
    ∧ containsStr (question_generator target_file) qg_title
    ∧ containsStr (question_generator target_file) qg_count_block :=
  ⟨containsStr_ne_empty
      (qf_sub (n := qf_qlabel) (Or.inr (Or.inr (Or.inr (Or.inr (Or.inr (Or.inr rfl)))))))
      (by decide),
   containsStr_ne_empty (vf_sub (n := vf_claim_label) (Or.inr rfl)) (by decide),
   containsStr_ne_empty (qg_sub (n := qg_title) (Or.inl (by decide))) (by decide),
   qf_whole_output question,
   vf_sub (Or.inl (by decide)),
   qg_sub (Or.inl (by decide)),
   qg_sub (Or.inr (Or.inr (by decide)))⟩

/-- C6 (amended): the target-count instruction of question_generator is one
fixed block, present verbatim for every target file (it scales nothing per
input); every output also instructs the consumer never to return empty
results, and the whole output is the fixed piece list qg_parts with the
target file inserted verbatim at the slots. -/
theorem C6 (target_file : String) :
    containsStr (question_generator target_file) qg_count_block
    ∧ containsStr (question_generator target_file) qg_no_empty
    ∧ question_generator target_file = strJoin (qg_parts target_file) :=
  ⟨qg_sub (Or.inr (Or.inr (by decide))), qg_sub (Or.inr (Or.inl (by decide))), rfl⟩

/-- C6 counterexample: the outputs for "contracts/RiskEngine.sol" and
"contracts/PoolData.sol" are the same fixed template with the file path
inserted, and both contain the identical target-count block — the
output-contract section does not request a larger count for RiskEngine.sol
than for PoolData.sol. -/
theorem C6_counterexample :
    question_generator "contracts/RiskEngine.sol" =
      strJoin (qg_parts "contracts/RiskEngine.sol")
    ∧ question_generator "contracts/PoolData.sol" =
      strJoin (qg_parts "contracts/PoolData.sol")
    ∧ containsStr (question_generator "contracts/RiskEngine.sol") qg_count_block
    ∧ containsStr (question_generator "contracts/PoolData.sol") qg_count_block :=
  ⟨rfl, rfl, qg_sub (Or.inr (Or.inr (by decide))), qg_sub (Or.inr (Or.inr (by decide)))⟩

/-- C4: for every question string, the composed prompt contains the persona
text, all 26 numbered invariant-catalog entries (each entry i starting with
its marker "i. **"), the output-requirements footer section, and the question
itself verbatim. -/
theorem C4 (question : String) :
    qf_invariant_entries.length = 26
    ∧ containsStr (question_format question) qf_persona
    ∧ (∀ e ∈ qf_invariant_entries, containsStr (question_format question) e)
    ∧ (∀ i, i < 26 → listPre (toString (i + 1) ++ ". **").data
        ((qf_invariant_entries.drop i).headI).data = true)
    ∧ containsStr (question_format question) qf_output
    ∧ containsStr (question_format question) question :=
  ⟨by decide,
   qf_whole_persona question,
   fun e he => qf_sub (Or.inr (Or.inr (Or.inl
     ((by decide : ∀ x ∈ qf_invariant_entries, x ∈ qf_invariants_parts) e he)))),
   by decide,
   qf_whole_output question,
   qf_sub (Or.inr (Or.inr (Or.inr (Or.inr (Or.inr (Or.inl rfl))))))⟩

/-- C4 witness: at the concrete question from the specification scenario, the
first catalog entry is contained in the composed prompt. -/
theorem C4_witness :
    containsStr (question_format "Can utilization manipulation affect interest rates?")
      qf_invariant_entries.headI :=
  (C4 "Can utilization manipulation affect interest rates?").2.2.1
    qf_invariant_entries.headI (by decide)

/-- C10: the module list questions_generator has 12 entries including
TokenId.sol, yet every composed prompt declares 11 in-scope files: the
in-scope lists of question_format and validation_format enumerate 12 distinct
contract file names under their "11" labels, while question_generator's
core_files block enumerates only 11 paths, omitting TokenId.sol. -/
theorem C10 (q r t : String) :
    questions_generator.length = 12
    ∧ "./contracts/types/TokenId.sol" ∈ questions_generator
    ∧ scope_file_names.length = 12
    ∧ scope_file_names.Nodup
    ∧ (∀ f ∈ scope_file_names,
        containsStr (question_format q) f ∧ containsStr (validation_format r) f)
    ∧ containsStr (question_format q) qf_scope_label
    ∧ containsStr (validation_format r) vf_inscope_label
    ∧ qg_core_files.length = 11
    ∧ "contracts/types/TokenId.sol" ∉ qg_core_files
    ∧ (∀ f ∈ qg_core_files, containsStr (question_generator t) f)
    ∧ containsStr (question_generator t) qg_total_label :=
  ⟨by decide, by decide, by decide, by decide,
   fun f hf =>
     ⟨qf_sub (Or.inr (Or.inl
        ((by decide : ∀ x ∈ scope_file_names, x ∈ qf_context_parts) f hf))),
      vf_sub (Or.inl
        ((by decide : ∀ x ∈ scope_file_names, x ∈ vf_body_parts) f hf))⟩,
   qf_sub (Or.inr (Or.inl (by decide))),
   vf_sub (Or.inl (by decide)),
   by decide, by decide,
   fun f hf =>
     qg_sub (Or.inr (Or.inl
       ((by decide : ∀ x ∈ qg_core_files, x ∈ qg_c2) f hf))),
   qg_sub (Or.inr (Or.inl (by decide)))⟩
/-- C3 (amended): question_format is the fixed concatenation persona framing,
then the question-slot label, then the verbatim question, then the
architecture primer, invariant catalog, investigation mission,
attack-surface checklists, attack vectors, trust model, known-issue
exclusions, severity taxonomy and output-contract footer — the question sits
between the persona framing and the architecture primer, and the severity
taxonomy header occurs only after the question slot, never before it. -/
theorem C3 (question : String) :
    question_format question =
      qf_persona ++ (qf_qlabel ++ (question ++ (qf_context ++ (qf_invariants ++
        (qf_mission ++ (qf_surface ++ (qf_vectors ++ (qf_trust ++
        (qf_exclusions ++ (qf_severity ++ qf_output))))))))))
    ∧ containsStr qf_severity qf_severity_header
    ∧ ¬ containsStr (qf_persona ++ qf_qlabel) qf_severity_header := by
  refine ⟨?_, csMem (by decide), ?_⟩
  · simp only [question_format, qf_parts, qf_tail_parts, strJoin_append,
      qf_persona, qf_context, qf_invariants, qf_mission, qf_surface, qf_vectors,
      qf_trust, qf_exclusions, qf_severity, qf_output, strJoin, str_append_empty,
      str_assoc]
  · intro hc
    have hb := (containsStr_iff _ _).mp hc
    rw [qf_head_no_sev] at hb
    exact Bool.noConfusion hb

/-- C3 counterexample: for the one-character question "ξ" (a character that
occurs nowhere in the fixed template), the unique occurrence of the question
in the composed prompt is NOT preceded by the severity taxonomy: there is no
decomposition placing the severity-taxonomy header before the question. The
claim's order "severity taxonomy, then the verbatim question" is false. -/
theorem C3_counterexample :
    ¬ ∃ x y, (question_format "ξ").data = x ++ "ξ".data ++ y ∧
      ∃ u v, x = u ++ qf_severity_header.data ++ v := by
  rintro ⟨x, y, hxy, u, v, rfl⟩
  have hsplit : (question_format "ξ").data =
      (qf_persona ++ qf_qlabel).data ++ 'ξ' :: (strJoin qf_tail_parts).data := by
    simp only [question_format, qf_parts, strJoin_append, strJoin,
      str_append_empty, strData_append, qf_persona, List.append_assoc]
    rfl
  rw [hsplit] at hxy
  have hxd : ("ξ" : String).data = ['ξ'] := rfl
  have hxy' : (u ++ qf_severity_header.data ++ v) ++ 'ξ' :: y =
      (qf_persona ++ qf_qlabel).data ++ 'ξ' :: (strJoin qf_tail_parts).data := by
    refine Eq.trans ?_ hxy.symm
    simp [List.append_assoc, hxd]
  have hH : listHas 'ξ' (qf_persona ++ qf_qlabel).data = false := by
    have p1 : listHas 'ξ' qf_persona.data = false :=
      listHas_strJoin qf_persona_parts (by decide)
    have p2 : listHas 'ξ' qf_qlabel.data = false := by decide
    rw [strData_append, listHas_append, p1, p2]
    rfl
  have hT : listHas 'ξ' (strJoin qf_tail_parts).data = false :=
    listHas_strJoin qf_tail_parts (by decide)
  obtain ⟨hxeq, -⟩ := eq_of_append_cons _ _ hH hT hxy'
  have hsub : listSub qf_severity_header.data (qf_persona ++ qf_qlabel).data = true :=
    (listSub_iff _ _).mpr ⟨u, v, hxeq.symm⟩
  rw [qf_head_no_sev] at hsub
  exact Bool.noConfusion hsub

/-- C7 counterexample: the no-finding sentinel does not occur in the output of
question_generator, here at the concrete target file
"contracts/PanopticPool.sol" — so the sentinel does not appear across all
three composition modes. -/
theorem C7_counterexample :
    ¬ containsStr (question_generator "contracts/PanopticPool.sol") noVulnSentinel := by
  intro hc
  have hb : listSub noVulnSentinel.data
      (strJoin (qg_parts "contracts/PanopticPool.sol")).data = true :=
    (containsStr_iff _ _).mp hc
  have h1 : listSub noVulnSentinel.data
      (strJoin (mergeLines (qg_parts "contracts/PanopticPool.sol"))).data = false :=
    listSub_join_lines (d := '\n') (by decide) (by decide) _ (by decide) (by decide)
  rw [mergeLines_strJoin] at h1
  rw [h1] at hb
  exact Bool.noConfusion hb

/-- C8 counterexample: the first numbered invariant-catalog entry does not
occur in the output of validation_format for the empty report — the
validation prompt does not embed the numbered catalog. -/
theorem C8_counterexample : ¬ containsStr (validation_format "") qf_inv1 := by
  intro hc
  have hp : containsStr (validation_format "")
      "1. **Solvency Maintenance**: All accounts must satisfy " :=
    csPre hc (by decide)
  have hb : listSub ("1. **Solvency Maintenance**: All accounts must satisfy " : String).data
      (strJoin (vf_parts "")).data = true :=
    (containsStr_iff _ _).mp hp
  have h1 : listSub ("1. **Solvency Maintenance**: All accounts must satisfy " : String).data
      (strJoin (mergeLines (vf_parts ""))).data = false :=
    listSub_join_lines (d := '\n') (by decide) (by decide) _ (by decide) (by decide)
  rw [mergeLines_strJoin] at h1
  rw [h1] at hb
  exact Bool.noConfusion hb
